import Mathlib

/-!
Verification of the `nsexec.c` container-init bootstrap
(`libcontainer/nsenter/nsexec.c` of sysbox-runc).

The C code is embedded shallowly: every syscall that the bootstrap performs
is recorded as an `Event`, and each C function becomes a Lean function in a
small writer/except/state monad `Run`.  Syscall outcomes that the code
branches on (write(2) errors, mount(2) results, the mapping helper's exit
status) are supplied by an oracle `W`, consumed in call order; syscalls whose
failure paths are not interesting here (open, setns, unshare, prctl, clone,
socketpair) are modelled as succeeding.  The `bail` macro of the C source is
modelled by `bailR`, which emits a `fatal` log line, an `exit 1` event, and
aborts the run with `Except.error`.
-/

/-! ## Constants from nsexec.c and the kernel headers -/

def CLONE_NEWNS : Nat := 0x00020000
def CLONE_NEWCGROUP : Nat := 0x02000000
def CLONE_NEWUTS : Nat := 0x04000000
def CLONE_NEWIPC : Nat := 0x08000000
def CLONE_NEWUSER : Nat := 0x10000000
def CLONE_NEWPID : Nat := 0x20000000
def CLONE_NEWNET : Nat := 0x40000000

def MS_PRIVATE : Nat := 262144
def MS_BIND : Nat := 4096
def MS_REC : Nat := 16384

def EPERM : Nat := 1
def ENOENT : Nat := 2
def EACCES : Nat := 13

def SYNC_USERMAP_PLS : Nat := 0x40
def SYNC_USERMAP_ACK : Nat := 0x41
def SYNC_RECVPID_PLS : Nat := 0x42
def SYNC_RECVPID_ACK : Nat := 0x43
def SYNC_GRANDCHILD : Nat := 0x44
def SYNC_CHILD_READY : Nat := 0x45

def CREATECGROUPNS : Nat := 0x80

def JUMP_PARENT : Nat := 0x00
def JUMP_CHILD : Nat := 0xA0
def JUMP_INIT : Nat := 0xA1

def INIT_MSG : Nat := 62000
def CLONE_FLAGS_ATTR : Nat := 27281
def NS_PATHS_ATTR : Nat := 27282
def UIDMAP_ATTR : Nat := 27283
def GIDMAP_ATTR : Nat := 27284
def SETGROUP_ATTR : Nat := 27285
def OOM_SCORE_ADJ_ATTR : Nat := 27286
def ROOTLESS_EUID_ATTR : Nat := 27287
def UIDMAPPATH_ATTR : Nat := 27288
def GIDMAPPATH_ATTR : Nat := 27289
def PREP_ROOTFS_ATTR : Nat := 27290
def MAKE_PARENT_PRIV_ATTR : Nat := 27291
def ROOTFS_PROP_ATTR : Nat := 27292
def ROOTFS_ATTR : Nat := 27293
def PARENT_MOUNT_ATTR : Nat := 27294
def SHIFTFS_MOUNTS_ATTR : Nat := 27295

/-- 32-bit complement, used for the C expressions `flags &= ~CLONE_NEWUSER`
and `unshare(config.cloneflags & ~CLONE_NEWCGROUP)` (cloneflags is a u32). -/
def compl32 (m : Nat) : Nat := 4294967295 ^^^ m

/-- Truthiness of `flags & mask` in C. -/
def hasFlag (flags mask : Nat) : Bool := flags &&& mask != 0

def clearFlag (flags mask : Nat) : Nat := flags &&& compl32 mask

/-! ## Files written through `write_file`, as structured paths -/

inductive ProcPath where
  | setgroups (pid : Nat)
  | uid_map (pid : Nat)
  | gid_map (pid : Nat)
  | oom_score_adj
  deriving DecidableEq, Repr

/-! ## Observable events of a bootstrap run -/

inductive Event where
  | writeFile (path : ProcPath) (data : String)
  | openFile (path : String)
  | setnsE (path : String) (nstype : Nat)
  | unshareE (flags : Nat)
  | mountE (src tgt fstype : String) (flags : Nat)
  | prctlDumpable (v : Nat)
  | cloneE (jmpval : Nat)
  | syncSend (tok : Nat)
  | syncRecv (tok : Nat)
  | sendPid
  | forkE
  | execveE (path : String) (argv : List (Option String)) (envp : List String)
  | setresuidE (r e s : Nat)
  | readInitByte (b : Nat)
  | setsidE
  | setuidE (u : Nat)
  | setgidE (g : Nat)
  | setgroupsCall
  | logLine (level : String) (msg : String)
  | exitE (code : Nat)
  deriving DecidableEq, Repr

/-! ## The oracle world and the run monad -/

/-- Oracle for syscall results the code branches on.  Each list is consumed
in call order; an exhausted list means "success" (`none` errno / `true`
mount result / helper exit status `0`). -/
structure W where
  wr : List (Option Nat)
  mnt : List Bool
  helper : List Nat
  deriving DecidableEq, Repr

def wDefault : W := ⟨[], [], []⟩

/-- A run returns the emitted events, the result (`Except.error` is the
`bail` path), and the remaining oracle. -/
def Run (α : Type) : Type := W → List Event × Except String α × W

def rpure {α : Type} (a : α) : Run α := fun w => ([], Except.ok a, w)

def rbind {α β : Type} (x : Run α) (f : α → Run β) : Run β := fun w =>
  match x w with
  | (es, Except.ok a, w2) =>
      match f a w2 with
      | (es2, r, w3) => (es ++ es2, r, w3)
  | (es, Except.error m, w2) => (es, Except.error m, w2)

def rseq {α β : Type} (x : Run α) (y : Run β) : Run β := rbind x (fun _ => y)

def emit (e : Event) : Run Unit := fun w => ([e], Except.ok (), w)

/-- The `bail` macro: a `fatal` log line and `exit(1)`. -/
def bailR {α : Type} (msg : String) : Run α := fun w =>
  ([Event.logLine "fatal" msg, Event.exitE 1], Except.error msg, w)

def nextWr : Run (Option Nat) := fun w =>
  ([], Except.ok (w.wr.headD none), ⟨w.wr.tail, w.mnt, w.helper⟩)

def nextMnt : Run Bool := fun w =>
  ([], Except.ok (w.mnt.headD true), ⟨w.wr, w.mnt.tail, w.helper⟩)

def nextHelper : Run Nat := fun w =>
  ([], Except.ok (w.helper.headD 0), ⟨w.wr, w.mnt, w.helper.tail⟩)

def runEvents {α : Type} (m : Run α) (w : W) : List Event := (m w).1

def runOutcome {α : Type} (m : Run α) (w : W) : Except String α := (m w).2.1

def isOk {α : Type} : Except String α → Bool
  | Except.ok _ => true
  | Except.error _ => false

def errOf {α : Type} : Except String α → Option String
  | Except.ok _ => none
  | Except.error m => some m

/-! ## write_file / mount wrappers -/

/-- `write_file` (nsexec.c:185): a successful open+write of `data` to `path`
is recorded as a `writeFile` event and returns `none`; a failure returns the
errno supplied by the oracle and emits nothing. -/
def write_file (data : String) (path : ProcPath) : Run (Option Nat) :=
  rbind nextWr (fun err =>
    match err with
    | none => rseq (emit (Event.writeFile path data)) (rpure none)
    | some e => rpure (some e))

/-- One `mount(2)` call; `true` means success (and the event is recorded). -/
def mountCall (src tgt fstype : String) (flags : Nat) : Run Bool :=
  rbind nextMnt (fun ok =>
    if ok then rseq (emit (Event.mountE src tgt fstype flags)) (rpure true)
    else rpure false)

def unshareCall (flags : Nat) : Run Unit := emit (Event.unshareE flags)

/-! ## Bootstrap configuration (struct nlconfig_t) -/

structure Config where
  cloneflags : Nat := 0
  oomScoreAdj : Option String := none
  uidmap : Option String := none
  gidmap : Option String := none
  namespaces : Option String := none
  isSetgroup : Bool := false
  isRootlessEuid : Bool := false
  uidmappath : Option String := none
  gidmappath : Option String := none
  prepRootfs : Bool := false
  makeParentPriv : Bool := false
  rootfsProp : Nat := 0
  rootfs : String := ""
  parentMount : String := ""
  shiftfsMounts : String := ""
  deriving DecidableEq, Repr

/-! ## update_setgroups (nsexec.c:220) -/

inductive Policy where
  | SETGROUPS_DEFAULT
  | SETGROUPS_ALLOW
  | SETGROUPS_DENY
  deriving DecidableEq, Repr

def policyString : Policy → Option String
  | Policy.SETGROUPS_DEFAULT => none
  | Policy.SETGROUPS_ALLOW => some "allow"
  | Policy.SETGROUPS_DENY => some "deny"

/-- `update_setgroups(pid, setgroup)`: writes the policy string to
`/proc/pid/setgroups`; `ENOENT` is tolerated (old kernel), any other errno
is fatal; `SETGROUPS_DEFAULT` does nothing. -/
def update_setgroups (pid : Nat) (setgroup : Policy) : Run Unit :=
  match policyString setgroup with
  | none => rpure ()
  | some policy =>
      rbind (write_file policy (ProcPath.setgroups pid)) (fun r =>
        match r with
        | none => rpure ()
        | some errno =>
            if errno != ENOENT then
              bailR "failed to write setgroups"
            else rpure ())

/-! ## try_mapping_tool (nsexec.c:255) and the map writers -/

def isMapSep (c : Char) : Bool := c = '\n' || c = ' '

/-- The argv-building loop of `try_mapping_tool` (nsexec.c:289-300), on the
remaining map text.  Mirrors the C exactly: while there is argv budget, an
exhausted string appends the terminating NULL (`none`) and stops; otherwise
the next entry points at the current position (the token up to the next
`'\n'`/`' '`, where a NUL is punched in); if no separator remains the loop
stops WITHOUT appending the NULL terminator; after a separator the following
run of separators is skipped (`strspn`). -/
def tokenizeMap : Nat → List Char → List (Option String)
  | 0, _ => []
  | _ + 1, [] => [none]
  | fuel + 1, c :: cs =>
      let tok := (c :: cs).takeWhile (fun x => !isMapSep x)
      match (c :: cs).dropWhile (fun x => !isMapSep x) with
      | [] => [some (String.mk tok)]
      | _ :: rest => some (String.mk tok) :: tokenizeMap fuel (rest.dropWhile isMapSep)

/-- The argv passed to `execve` by the forked child of `try_mapping_tool`:
the helper path, the decimal pid (argc = 2 after these), then the loop above
with the remaining `MAX_ARGV - 2 = 18` slots. -/
def try_mapping_argv (app : String) (pid : Nat) (m : String) : List (Option String) :=
  some app :: some (toString pid) :: tokenizeMap 18 m.data

/-- `try_mapping_tool(app, pid, map, map_len)`: a NULL helper path is fatal
("mapping tool not present"); otherwise fork, execve the helper with the
built argv and an empty environment, waitpid, and return the helper's exit
status (oracle-supplied). -/
def try_mapping_tool (app : Option String) (pid : Nat) (m : String) : Run Nat :=
  match app with
  | none => bailR "mapping tool not present"
  | some appPath =>
      rseq (emit Event.forkE)
        (rseq (emit (Event.execveE appPath (try_mapping_argv appPath pid m) []))
          nextHelper)

/-- `update_uidmap` (nsexec.c:321): nothing to do for a NULL/empty map; a
direct write failure with errno other than EPERM is fatal; on EPERM fall
back to the mapping tool and require exit status 0. -/
def update_uidmap (path : Option String) (pid : Nat) (m : Option String) : Run Unit :=
  match m with
  | none => rpure ()
  | some s =>
      if s = "" then rpure ()
      else
        rbind (write_file s (ProcPath.uid_map pid)) (fun r =>
          match r with
          | none => rpure ()
          | some errno =>
              if errno != EPERM then bailR "failed to update uid_map"
              else
                rbind (try_mapping_tool path pid s) (fun st =>
                  if st != 0 then bailR "failed to use newuid map" else rpure ()))

/-- `update_gidmap` (nsexec.c:334), same shape as `update_uidmap`. -/
def update_gidmap (path : Option String) (pid : Nat) (m : Option String) : Run Unit :=
  match m with
  | none => rpure ()
  | some s =>
      if s = "" then rpure ()
      else
        rbind (write_file s (ProcPath.gid_map pid)) (fun r =>
          match r with
          | none => rpure ()
          | some errno =>
              if errno != EPERM then bailR "failed to update gid_map"
              else
                rbind (try_mapping_tool path pid s) (fun st =>
                  if st != 0 then bailR "failed to use newgid map" else rpure ()))

/-- `update_oom_score_adj` (nsexec.c:347): nothing for NULL/empty data; any
write failure is fatal. -/
def update_oom_score_adj (d : Option String) : Run Unit :=
  match d with
  | none => rpure ()
  | some s =>
      if s = "" then rpure ()
      else
        rbind (write_file s ProcPath.oom_score_adj) (fun r =>
          match r with
          | none => rpure ()
          | some _ => bailR "failed to update oom_score_adj")

/-! ## nsflag and join_namespaces (nsexec.c:413, 553) -/

def nsflag (name : String) : Nat :=
  if name = "cgroup" then CLONE_NEWCGROUP
  else if name = "ipc" then CLONE_NEWIPC
  else if name = "mnt" then CLONE_NEWNS
  else if name = "net" then CLONE_NEWNET
  else if name = "pid" then CLONE_NEWPID
  else if name = "user" then CLONE_NEWUSER
  else if name = "uts" then CLONE_NEWUTS
  else 0

/-- `strstr(namespace, ":")` followed by `*path++ = '\0'`: split at the
first colon; `none` if there is no colon. -/
def splitColonAux : List Char → Option (List Char × List Char)
  | [] => none
  | c :: cs =>
      if c = ':' then some ([], cs)
      else
        match splitColonAux cs with
        | none => none
        | some (a, b) => some (c :: a, b)

def splitColon (s : String) : Option (String × String) :=
  match splitColonAux s.data with
  | none => none
  | some (a, b) => some (String.mk a, String.mk b)

/-- Split a character list at commas (keeping empty pieces), structurally. -/
def splitCommaAux : List Char → List Char → List String
  | [], acc => [String.mk acc.reverse]
  | c :: cs, acc =>
      if c = ',' then String.mk acc.reverse :: splitCommaAux cs []
      else splitCommaAux cs (c :: acc)

def splitComma (s : String) : List String := splitCommaAux s.data []

/-- The tokens produced by `strtok_r(nslist, ",", ...)`: comma-separated,
with empty tokens skipped. -/
def nsToks (nslist : String) : List String :=
  (splitComma nslist).filter (fun t => t != "")

/-- The parsed `(kind, path)` entries of an ns-path list. -/
def nsEntries (nslist : String) : List (String × String) :=
  (nsToks nslist).filterMap splitColon

/-- First loop of `join_namespaces` (nsexec.c:573-598): parse each
`kind:path` token and open the path, recording `(path, nsflag kind)`.
A token without a colon is fatal. -/
def open_ns_fds : List String → Run (List (String × Nat))
  | [] => rpure []
  | t :: ts =>
      match splitColon t with
      | none => bailR "failed to parse ns entry"
      | some kp =>
          rseq (emit (Event.openFile kp.2))
            (rbind (open_ns_fds ts) (fun rest => rpure ((kp.2, nsflag kp.1) :: rest)))

/-- Second loop of `join_namespaces` (nsexec.c:607-614): `setns` each
pre-opened fd, in list order. -/
def do_setns : List (String × Nat) → Run Unit
  | [] => rpure ()
  | e :: rest => rseq (emit (Event.setnsE e.1 e.2)) (do_setns rest)

/-- `join_namespaces(nslist)`: an empty token list is fatal ("ns paths are
empty"); otherwise open all fds first, then setns them in order. -/
def join_namespaces (nslist : String) : Run Unit :=
  if (nsToks nslist).isEmpty then bailR "ns paths are empty"
  else rbind (open_ns_fds (nsToks nslist)) (fun entries => do_setns entries)

/-! ## mount_shiftfs (nsexec.c:620) -/

def shiftfsToks (cfg : Config) : List String :=
  (splitComma cfg.shiftfsMounts).filter (fun t => t != "")

/-- The loop of `mount_shiftfs`: the rootfs entry is mounted over `"."`
(the cwd is the rootfs by contract), every other path over itself; the
first failing mount makes the function return -1 (here `false`). -/
def mount_shiftfs_list (cfg : Config) : List String → Run Bool
  | [] => rpure true
  | p :: rest =>
      rbind
        (if p = cfg.rootfs then mountCall "." "." "shiftfs" 0
         else mountCall p p "shiftfs" 0)
        (fun ok => if ok then mount_shiftfs_list cfg rest else rpure false)

/-- `mount_shiftfs(config)`: an empty mount list succeeds immediately. -/
def mount_shiftfs (cfg : Config) : Run Bool :=
  mount_shiftfs_list cfg (shiftfsToks cfg)

/-! ## Netlink attribute parsing (nl_parse, nsexec.c:445) -/

def readint32 (buf : List Nat) : Nat :=
  buf.headD 0 + 256 * ((buf.drop 1).headD 0) + 65536 * ((buf.drop 2).headD 0)
    + 16777216 * ((buf.drop 3).headD 0)

def readint8 (buf : List Nat) : Nat := buf.headD 0

def readstr (buf : List Nat) : String := String.mk (buf.map Char.ofNat)

def knownNlAttr (t : Nat) : Bool :=
  t == CLONE_FLAGS_ATTR || t == ROOTLESS_EUID_ATTR || t == OOM_SCORE_ADJ_ATTR ||
  t == NS_PATHS_ATTR || t == UIDMAP_ATTR || t == GIDMAP_ATTR ||
  t == UIDMAPPATH_ATTR || t == GIDMAPPATH_ATTR || t == SETGROUP_ATTR ||
  t == PREP_ROOTFS_ATTR || t == MAKE_PARENT_PRIV_ATTR || t == ROOTFS_PROP_ATTR ||
  t == ROOTFS_ATTR || t == PARENT_MOUNT_ATTR || t == SHIFTFS_MOUNTS_ATTR

/-- One arm of the `switch (nlattr->nla_type)` of `nl_parse`; `none` is the
`default:` arm. -/
def nl_attr_apply (t : Nat) (p : List Nat) (cfg : Config) : Option Config :=
  if t = CLONE_FLAGS_ATTR then some { cfg with cloneflags := readint32 p }
  else if t = ROOTLESS_EUID_ATTR then some { cfg with isRootlessEuid := readint8 p != 0 }
  else if t = OOM_SCORE_ADJ_ATTR then some { cfg with oomScoreAdj := some (readstr p) }
  else if t = NS_PATHS_ATTR then some { cfg with namespaces := some (readstr p) }
  else if t = UIDMAP_ATTR then some { cfg with uidmap := some (readstr p) }
  else if t = GIDMAP_ATTR then some { cfg with gidmap := some (readstr p) }
  else if t = UIDMAPPATH_ATTR then some { cfg with uidmappath := some (readstr p) }
  else if t = GIDMAPPATH_ATTR then some { cfg with gidmappath := some (readstr p) }
  else if t = SETGROUP_ATTR then some { cfg with isSetgroup := readint8 p != 0 }
  else if t = PREP_ROOTFS_ATTR then some { cfg with prepRootfs := readint8 p != 0 }
  else if t = MAKE_PARENT_PRIV_ATTR then some { cfg with makeParentPriv := readint8 p != 0 }
  else if t = ROOTFS_PROP_ATTR then some { cfg with rootfsProp := readint32 p }
  else if t = ROOTFS_ATTR then some { cfg with rootfs := readstr p }
  else if t = PARENT_MOUNT_ATTR then some { cfg with parentMount := readstr p }
  else if t = SHIFTFS_MOUNTS_ATTR then some { cfg with shiftfsMounts := readstr p }
  else none

/-- The attribute loop of `nl_parse` (nsexec.c:474-545) over the decoded
`(nla_type, payload)` sequence; an unknown attribute type hits the
`default: bail("unknown netlink message type %d")` arm. -/
def nl_parse_attrs : List (Nat × List Nat) → Config → Run Config
  | [], cfg => rpure cfg
  | (t, p) :: rest, cfg =>
      match nl_attr_apply t p cfg with
      | some cfg2 => nl_parse_attrs rest cfg2
      | none => bailR "unknown netlink message type"

/-! ## Stage P0 (JUMP_PARENT) -/

/-- The `SYNC_USERMAP_PLS` arm of P0's sync loop (nsexec.c:814-837):
optionally force the `deny` setgroups policy (rootless single-entry
mapping), then write uid_map, then gid_map, then ACK. -/
def p0_handle_usermap (cfg : Config) (child : Nat) : Run Unit :=
  rseq
    (if cfg.isRootlessEuid && !cfg.isSetgroup then
       update_setgroups child Policy.SETGROUPS_DENY
     else rpure ())
    (rseq (update_uidmap cfg.uidmappath child cfg.uidmap)
      (rseq (update_gidmap cfg.gidmappath child cfg.gidmap)
        (emit (Event.syncSend SYNC_USERMAP_ACK))))

/-- The entry path of `nsexec` executed by P0 between `nl_parse` and the
`clone_parent(&env, JUMP_CHILD)` call (nsexec.c:699-793): the hardcoded
`-999` oom_score_adj write, the non-dumpable switch when namespaces are to
be joined, and the stage clone. -/
def nsexec_preamble (cfg : Config) : Run Unit :=
  rseq (update_oom_score_adj (some "-999"))
    (rseq (if cfg.namespaces.isSome then emit (Event.prctlDumpable 0) else rpure ())
      (emit (Event.cloneE JUMP_CHILD)))

/-! ## Stage P1 (JUMP_CHILD, nsexec.c:916-1121) -/

/-- The rootfs-prep block (nsexec.c:988-1007): set propagation (fatal on
failure); if `make_parent_priv`, try to make the parent mount private
(failure tolerated, to be retried after ID mapping); if the parent-private
step succeeded or was not requested, do the bind-to-self mount (fatal on
failure) and the shiftfs mounts (failure tolerated here).  Returns
`(make_parent_priv_done, shiftfs_mounts_done)`. -/
def p1_prep (cfg : Config) : Run (Bool × Bool) :=
  if cfg.prepRootfs then
    rbind (mountCall "" "/" "" cfg.rootfsProp) (fun ok1 =>
      if !ok1 then bailR "failed to set rootfs mount propagation"
      else
        rbind
          (if cfg.makeParentPriv then mountCall "" cfg.parentMount "" MS_PRIVATE
           else rpure false)
          (fun mppd =>
            if !cfg.makeParentPriv || mppd then
              rbind (mountCall "." "." "bind" (MS_BIND ||| MS_REC)) (fun ok2 =>
                if !ok2 then bailR "failed to create bind-to-self mount on rootfs"
                else rbind (mount_shiftfs cfg) (fun sfok => rpure (mppd, sfok)))
            else rpure (mppd, false)))
  else rpure (false, false)

/-- The user-ns mapping request (nsexec.c:1014-1041), run when a new user
namespace was unshared: the dumpable window around the sync (only when
namespaces were joined), `SYNC_USERMAP_PLS` / `SYNC_USERMAP_ACK`, then
`setresuid(0,0,0)`. -/
def p1_usermap (cfg : Config) (new_userns : Bool) : Run Unit :=
  if new_userns then
    rseq (if cfg.namespaces.isSome then emit (Event.prctlDumpable 1) else rpure ())
      (rseq (emit (Event.syncSend SYNC_USERMAP_PLS))
        (rseq (emit (Event.syncRecv SYNC_USERMAP_ACK))
          (rseq (if cfg.namespaces.isSome then emit (Event.prctlDumpable 0) else rpure ())
            (emit (Event.setresuidE 0 0 0)))))
  else rpure ()

/-- The deferred rootfs-prep retries (nsexec.c:1050-1062): if the parent
mount could not be made private before ID mapping, retry (now fatal on
failure) and redo the bind-to-self mount; if the shiftfs mounts are still
pending, do them (fatal on failure). -/
def p1_deferred (cfg : Config) (mppd sfd : Bool) : Run Unit :=
  rseq
    (if cfg.makeParentPriv && !mppd then
       rbind (mountCall "" cfg.parentMount "" MS_PRIVATE) (fun ok =>
         if !ok then bailR "failed to set rootfs parent mount propagation to private"
         else
           rbind (mountCall "." "." "bind" (MS_BIND ||| MS_REC)) (fun ok2 =>
             if !ok2 then bailR "failed to create bind-to-self mount on rootfs"
             else rpure ()))
     else rpure ())
    (if cfg.prepRootfs && !sfd then
       rbind (mount_shiftfs cfg) (fun ok =>
         if !ok then bailR "failed to setup shiftfs mounts" else rpure ())
     else rpure ())

/-- P1 up to (and excluding) the bulk unshare: join namespaces, unshare the
user namespace alone (clearing its flag), unshare the mount namespace
(clearing its flag), rootfs prep, usermap request, deferred rootfs prep.
Returns the remaining clone flags. -/
def p1_head (cfg : Config) : Run Nat :=
  rseq
    (if cfg.namespaces.isSome then join_namespaces (cfg.namespaces.getD "")
     else rpure ())
    (rbind
      (if hasFlag cfg.cloneflags CLONE_NEWUSER then
         rseq (unshareCall CLONE_NEWUSER)
           (rpure (clearFlag cfg.cloneflags CLONE_NEWUSER, true))
       else rpure (cfg.cloneflags, false))
      (fun fl_nu =>
        rbind
          (if hasFlag fl_nu.1 CLONE_NEWNS then
             rseq (unshareCall CLONE_NEWNS) (rpure (clearFlag fl_nu.1 CLONE_NEWNS))
           else rpure fl_nu.1)
          (fun flags =>
            rbind (p1_prep cfg) (fun ms =>
              rseq (p1_usermap cfg fl_nu.2)
                (rseq (p1_deferred cfg ms.1 ms.2) (rpure flags))))))

/-- P1 from the bulk unshare to `exit(0)` (nsexec.c:1075-1120): unshare the
remaining namespaces EXCEPT the cgroup namespace, clone P2, report its pid,
signal CHILD_READY, exit. -/
def p1_tail (flags : Nat) : Run Unit :=
  rseq (unshareCall (flags &&& compl32 CLONE_NEWCGROUP))
    (rseq (emit (Event.cloneE JUMP_INIT))
      (rseq (emit (Event.syncSend SYNC_RECVPID_PLS))
        (rseq (emit Event.sendPid)
          (rseq (emit (Event.syncRecv SYNC_RECVPID_ACK))
            (rseq (emit (Event.syncSend SYNC_CHILD_READY))
              (emit (Event.exitE 0)))))))

def p1_stage (cfg : Config) : Run Unit :=
  rbind (p1_head cfg) (fun flags => p1_tail flags)

/-! ## Stage P2 (JUMP_INIT, nsexec.c:1129-1209) -/

/-- P2: the dumpable window around the configured oom_score_adj write, the
GRANDCHILD sync, setsid/setuid/setgid (+ setgroups drop for the privileged
setgroup case), the cgroup-ns handoff byte (`0x80` required, anything else
fatal), and the final CHILD_READY.  `b` is the byte delivered on the init
pipe. -/
def p2_stage (cfg : Config) (b : Nat) : Run Unit :=
  rseq (emit (Event.prctlDumpable 1))
    (rseq (update_oom_score_adj cfg.oomScoreAdj)
      (rseq (emit (Event.prctlDumpable 0))
        (rseq (emit (Event.syncRecv SYNC_GRANDCHILD))
          (rseq (emit Event.setsidE)
            (rseq (emit (Event.setuidE 0))
              (rseq (emit (Event.setgidE 0))
                (rseq
                  (if !cfg.isRootlessEuid && cfg.isSetgroup then
                     emit Event.setgroupsCall
                   else rpure ())
                  (rseq
                    (if hasFlag cfg.cloneflags CLONE_NEWCGROUP then
                       rseq (emit (Event.readInitByte b))
                         (if b = CREATECGROUPNS then unshareCall CLONE_NEWCGROUP
                          else bailR "received unknown synchronisation value")
                     else rpure ())
                    (emit (Event.syncSend SYNC_CHILD_READY))))))))))

/-! ## Event predicates used in the claims -/

def isSetgroupsWriteTo (pid : Nat) : Event → Bool
  | Event.writeFile (ProcPath.setgroups p) _ => p == pid
  | _ => false

def isGidMapWriteTo (pid : Nat) : Event → Bool
  | Event.writeFile (ProcPath.gid_map p) _ => p == pid
  | _ => false

/-- An `unshare` whose flag word contains `CLONE_NEWCGROUP` (bit 25). -/
def isUnshareCgroup : Event → Bool
  | Event.unshareE f => f.testBit 25
  | _ => false

def isReadByteEv : Event → Bool
  | Event.readInitByte _ => true
  | _ => false

def isOpenEv : Event → Bool
  | Event.openFile _ => true
  | _ => false

def isSetnsEv : Event → Bool
  | Event.setnsE _ _ => true
  | _ => false

/-- The bind-to-self rootfs mount `mount(".", ".", "bind", MS_BIND|MS_REC)`. -/
def isBindSelfEv : Event → Bool
  | Event.mountE s t f _ => s == "." && t == "." && f == "bind"
  | _ => false

def isCloneInitEv : Event → Bool
  | Event.cloneE j => j == JUMP_INIT
  | _ => false

/-- The `mount("", parent_mount, "", MS_PRIVATE, "")` call of the rootfs
prep. -/
def isParentPrivEv (cfg : Config) (e : Event) : Bool :=
  e == Event.mountE "" cfg.parentMount "" MS_PRIVATE

def isShiftfsEv : Event → Bool
  | Event.mountE _ _ f _ => f == "shiftfs"
  | _ => false

def isSetresuidEv : Event → Bool
  | Event.setresuidE _ _ _ => true
  | _ => false

def isOomWrite : Event → Bool
  | Event.writeFile ProcPath.oom_score_adj _ => true
  | _ => false

def isExecveEv : Event → Bool
  | Event.execveE _ _ _ => true
  | _ => false

/-! ## Temporal orderings over a trace -/

/-- Every `p`-event of `l` occurs strictly before every `q`-event of `l`. -/
def beforeAll (p q : Event → Bool) (l : List Event) : Prop :=
  ∀ i j : Fin l.length, p (l.get i) = true → q (l.get j) = true → (i : Nat) < (j : Nat)

/-- Every `q`-event of `l` is preceded by some `p`-event. -/
def precededBy (q p : Event → Bool) (l : List Event) : Prop :=
  ∀ j : Fin l.length, q (l.get j) = true →
    ∃ i : Fin l.length, (i : Nat) < (j : Nat) ∧ p (l.get i) = true

/-- Every event of every run of `m` satisfies `P`. -/
def EvPred {α : Type} (m : Run α) (P : Event → Prop) : Prop :=
  ∀ w : W, ∀ e ∈ (m w).1, P e

/-- The successful-join side condition of P1: either no namespaces are to
be joined, or the ns-path list is well-formed (non-empty, every token of
the form `kind:path`), in which case `join_namespaces` succeeds. -/
def nsJoinOkP (cfg : Config) : Prop :=
  cfg.namespaces = none ∨
    ∃ s, cfg.namespaces = some s ∧ nsToks s ≠ [] ∧
      ∀ t ∈ nsToks s, (splitColon t).isSome = true

/-! ## Concrete fixtures for the witnesses -/

def cfgScenA : Config :=
  { cloneflags := CLONE_NEWUSER ||| CLONE_NEWNS ||| CLONE_NEWPID ||| CLONE_NEWNET |||
      CLONE_NEWIPC ||| CLONE_NEWUTS ||| CLONE_NEWCGROUP
    oomScoreAdj := some "500"
    uidmap := some "0 100000 65536\n"
    gidmap := some "0 100000 65536\n"
    isSetgroup := true }

def cfgRootless : Config :=
  { cloneflags := CLONE_NEWUSER
    uidmap := some "0 1000 1\n"
    gidmap := some "0 1000 1\n"
    isRootlessEuid := true
    isSetgroup := false }

def cfgScenD : Config :=
  { cloneflags := CLONE_NEWUSER ||| CLONE_NEWNS
    prepRootfs := true
    makeParentPriv := true
    rootfsProp := MS_PRIVATE
    rootfs := "/var/lib/ctr/abc/rootfs"
    parentMount := "/var/lib/ctr/abc"
    shiftfsMounts := "/var/lib/ctr/abc/rootfs" }

def cfgNoOom : Config :=
  { cloneflags := CLONE_NEWUSER ||| CLONE_NEWCGROUP
    oomScoreAdj := none }

/-! ## Generic lemmas about the run monad -/

theorem rbind_run_ok {α β : Type} {x : Run α} {f : α → Run β} {w : W}
    {es : List Event} {a : α} {w2 : W} (h : x w = (es, Except.ok a, w2)) :
    rbind x f w = (es ++ (f a w2).1, (f a w2).2) := by
  unfold rbind
  rw [h]

theorem rbind_run_err {α β : Type} {x : Run α} {f : α → Run β} {w : W}
    {es : List Event} {m : String} {w2 : W} (h : x w = (es, Except.error m, w2)) :
    rbind x f w = (es, Except.error m, w2) := by
  unfold rbind
  rw [h]

theorem rseq_run_ok {α β : Type} {x : Run α} {y : Run β} {w : W}
    {es : List Event} {a : α} {w2 : W} (h : x w = (es, Except.ok a, w2)) :
    rseq x y w = (es ++ (y w2).1, (y w2).2) :=
  rbind_run_ok h

theorem rseq_run_err {α β : Type} {x : Run α} {y : Run β} {w : W}
    {es : List Event} {m : String} {w2 : W} (h : x w = (es, Except.error m, w2)) :
    rseq x y w = (es, Except.error m, w2) :=
  rbind_run_err h

theorem evPred_rpure {α : Type} (a : α) (P : Event → Prop) : EvPred (rpure a) P := by
  intro w e he
  simp [rpure] at he

theorem evPred_emit {e : Event} {P : Event → Prop} (h : P e) : EvPred (emit e) P := by
  intro w x hx
  simp [emit] at hx
  subst hx
  exact h

theorem evPred_bailR {α : Type} {msg : String} {P : Event → Prop}
    (h1 : P (Event.logLine "fatal" msg)) (h2 : P (Event.exitE 1)) :
    EvPred (bailR (α := α) msg) P := by
  intro w e he
  simp [bailR] at he
  rcases he with he | he <;> subst he
  · exact h1
  · exact h2

theorem evPred_nextWr (P : Event → Prop) : EvPred nextWr P := by
  intro w e he
  simp [nextWr] at he

theorem evPred_nextMnt (P : Event → Prop) : EvPred nextMnt P := by
  intro w e he
  simp [nextMnt] at he

theorem evPred_nextHelper (P : Event → Prop) : EvPred nextHelper P := by
  intro w e he
  simp [nextHelper] at he

theorem evPred_rbind {α β : Type} {x : Run α} {f : α → Run β} {P : Event → Prop}
    (hx : EvPred x P) (hf : ∀ a, EvPred (f a) P) : EvPred (rbind x f) P := by
  intro w e he
  rcases hxw : x w with ⟨es, r, w2⟩
  cases r with
  | ok a =>
      rw [rbind_run_ok hxw] at he
      simp at he
      rcases he with he | he
      · exact hx w e (by rw [hxw]; exact he)
      · exact hf a w2 e he
  | error m =>
      rw [rbind_run_err hxw] at he
      exact hx w e (by rw [hxw]; exact he)

theorem evPred_rseq {α β : Type} {x : Run α} {y : Run β} {P : Event → Prop}
    (hx : EvPred x P) (hy : EvPred y P) : EvPred (rseq x y) P :=
  evPred_rbind hx (fun _ => hy)

/-! ## Lemmas about the temporal orderings -/

theorem get_mem_fin {α : Type} (l : List α) (i : Fin l.length) : l.get i ∈ l :=
  l.get_mem i.1 i.2

theorem get_append_left_fin {l₁ l₂ : List Event} {i : Nat} (h : i < l₁.length)
    (h2 : i < (l₁ ++ l₂).length) : (l₁ ++ l₂).get ⟨i, h2⟩ = l₁.get ⟨i, h⟩ := by
  simp [List.get_eq_getElem]
  rw [List.getElem_append_left]

theorem get_append_right_fin {l₁ l₂ : List Event} {i : Nat} (h : l₁.length ≤ i)
    (h2 : i < (l₁ ++ l₂).length) (h3 : i - l₁.length < l₂.length) :
    (l₁ ++ l₂).get ⟨i, h2⟩ = l₂.get ⟨i - l₁.length, h3⟩ := by
  simp [List.get_eq_getElem]
  rw [List.getElem_append_right h]

/-- An index of `l₁ ++ l₂` carrying a `P`-event, where `l₁` has no
`P`-events, lies at or beyond `l₁.length`. -/
theorem index_past_left {P : Event → Bool} {l₁ l₂ : List Event}
    (h₁ : ∀ e ∈ l₁, P e = false) (i : Fin (l₁ ++ l₂).length)
    (hp : P ((l₁ ++ l₂).get i) = true) : l₁.length ≤ (i : Nat) := by
  by_contra hlt
  push_neg at hlt
  rw [get_append_left_fin hlt] at hp
  have := h₁ _ (get_mem_fin l₁ ⟨(i : Nat), hlt⟩)
  rw [this] at hp
  cases hp

/-- An index of `l₁ ++ l₂` carrying a `P`-event, where `l₂` has no
`P`-events, lies inside `l₁`. -/
theorem index_in_left {P : Event → Bool} {l₁ l₂ : List Event}
    (h₂ : ∀ e ∈ l₂, P e = false) (i : Fin (l₁ ++ l₂).length)
    (hp : P ((l₁ ++ l₂).get i) = true) : (i : Nat) < l₁.length := by
  by_contra hge
  push_neg at hge
  have hi2 : (i : Nat) - l₁.length < l₂.length := by
    have := i.isLt
    simp [List.length_append] at this
    omega
  rw [get_append_right_fin hge _ hi2] at hp
  have := h₂ _ (get_mem_fin l₂ ⟨(i : Nat) - l₁.length, hi2⟩)
  rw [this] at hp
  cases hp

theorem beforeAll_of_no_q {p q : Event → Bool} {l : List Event}
    (h : ∀ e ∈ l, q e = false) : beforeAll p q l := by
  intro i j _ hq
  have := h (l.get j) (get_mem_fin l j)
  rw [this] at hq
  cases hq

theorem beforeAll_of_no_p {p q : Event → Bool} {l : List Event}
    (h : ∀ e ∈ l, p e = false) : beforeAll p q l := by
  intro i j hp _
  have := h (l.get i) (get_mem_fin l i)
  rw [this] at hp
  cases hp

theorem beforeAll_append {p q : Event → Bool} {l₁ l₂ : List Event}
    (h₁ : ∀ e ∈ l₁, q e = false) (h₂ : ∀ e ∈ l₂, p e = false) :
    beforeAll p q (l₁ ++ l₂) := by
  intro i j hp hq
  have hi := index_in_left h₂ i hp
  have hj := index_past_left h₁ j hq
  omega

theorem beforeAll_prepend_neutral {p q : Event → Bool} {l₀ l : List Event}
    (h₀ : ∀ e ∈ l₀, p e = false ∧ q e = false) (h : beforeAll p q l) :
    beforeAll p q (l₀ ++ l) := by
  intro i j hp hq
  have hi := index_past_left (fun e he => (h₀ e he).1) i hp
  have hj := index_past_left (fun e he => (h₀ e he).2) j hq
  have hi2 : (i : Nat) - l₀.length < l.length := by
    have := i.isLt
    simp [List.length_append] at this
    omega
  have hj2 : (j : Nat) - l₀.length < l.length := by
    have := j.isLt
    simp [List.length_append] at this
    omega
  rw [get_append_right_fin hi _ hi2] at hp
  rw [get_append_right_fin hj _ hj2] at hq
  have := h ⟨(i : Nat) - l₀.length, hi2⟩ ⟨(j : Nat) - l₀.length, hj2⟩ hp hq
  simp at this
  omega

theorem beforeAll_append_neutral_right {p q : Event → Bool} {l l₂ : List Event}
    (h : beforeAll p q l) (h₂ : ∀ e ∈ l₂, p e = false ∧ q e = false) :
    beforeAll p q (l ++ l₂) := by
  intro i j hp hq
  have hi := index_in_left (fun e he => (h₂ e he).1) i hp
  have hj := index_in_left (fun e he => (h₂ e he).2) j hq
  rw [get_append_left_fin hi] at hp
  rw [get_append_left_fin hj] at hq
  exact h ⟨(i : Nat), hi⟩ ⟨(j : Nat), hj⟩ hp hq

theorem precededBy_of_no_q {q p : Event → Bool} {l : List Event}
    (h : ∀ e ∈ l, q e = false) : precededBy q p l := by
  intro j hq
  have := h (l.get j) (get_mem_fin l j)
  rw [this] at hq
  cases hq

theorem precededBy_append_left {q p : Event → Bool} {l₁ l₂ : List Event}
    (hp : ∃ e ∈ l₁, p e = true) (hq : ∀ e ∈ l₁, q e = false) :
    precededBy q p (l₁ ++ l₂) := by
  intro j hqj
  obtain ⟨e, he, hpe⟩ := hp
  obtain ⟨n, hn⟩ := List.get_of_mem he
  have hj := index_past_left hq j hqj
  have hn2 : (n : Nat) < (l₁ ++ l₂).length := by
    have := n.isLt
    simp [List.length_append]
    omega
  refine ⟨⟨(n : Nat), hn2⟩, ?_, ?_⟩
  · have := n.isLt
    simp
    omega
  · rw [get_append_left_fin n.isLt]
    have : l₁.get ⟨(n : Nat), n.isLt⟩ = l₁.get n := by
      congr
    rw [this, hn]
    exact hpe

/-! ## Event-shape lemmas for the embedded C functions -/

theorem evPred_write_file {data : String} {path : ProcPath} {P : Event → Prop}
    (h : P (Event.writeFile path data)) : EvPred (write_file data path) P := by
  unfold write_file
  apply evPred_rbind (evPred_nextWr P)
  intro a
  cases a with
  | none => exact evPred_rseq (evPred_emit h) (evPred_rpure _ _)
  | some e => exact evPred_rpure _ _

theorem evPred_mountCall {src tgt fstype : String} {fl : Nat} {P : Event → Prop}
    (h : P (Event.mountE src tgt fstype fl)) : EvPred (mountCall src tgt fstype fl) P := by
  unfold mountCall
  apply evPred_rbind (evPred_nextMnt P)
  intro a
  cases a
  · exact evPred_rpure _ _
  · exact evPred_rseq (evPred_emit h) (evPred_rpure _ _)

theorem evPred_update_setgroups {pid : Nat} {pol : Policy} {P : Event → Prop}
    (hw : ∀ s, P (Event.writeFile (ProcPath.setgroups pid) s))
    (hlog : ∀ m, P (Event.logLine "fatal" m)) (hexit : P (Event.exitE 1)) :
    EvPred (update_setgroups pid pol) P := by
  cases pol <;> unfold update_setgroups <;> simp [policyString]
  case SETGROUPS_DEFAULT => exact evPred_rpure _ _
  all_goals
    apply evPred_rbind (evPred_write_file (hw _))
    intro r
    cases r with
    | none => exact evPred_rpure _ _
    | some errno =>
        by_cases he : errno = ENOENT <;> simp [he]
        · exact evPred_rpure _ _
        · exact evPred_bailR (hlog _) hexit

theorem evPred_try_mapping_tool {app : Option String} {pid : Nat} {m : String}
    {P : Event → Prop}
    (hfork : P Event.forkE)
    (hexec : ∀ a b c, P (Event.execveE a b c))
    (hlog : ∀ s, P (Event.logLine "fatal" s)) (hexit : P (Event.exitE 1)) :
    EvPred (try_mapping_tool app pid m) P := by
  cases app with
  | none => exact evPred_bailR (hlog _) hexit
  | some appPath =>
      unfold try_mapping_tool
      exact evPred_rseq (evPred_emit hfork)
        (evPred_rseq (evPred_emit (hexec _ _ _)) (evPred_nextHelper P))

theorem evPred_update_uidmap {path : Option String} {pid : Nat} {m : Option String}
    {P : Event → Prop}
    (hw : ∀ s, P (Event.writeFile (ProcPath.uid_map pid) s))
    (hfork : P Event.forkE)
    (hexec : ∀ a b c, P (Event.execveE a b c))
    (hlog : ∀ s, P (Event.logLine "fatal" s)) (hexit : P (Event.exitE 1)) :
    EvPred (update_uidmap path pid m) P := by
  cases m with
  | none => exact evPred_rpure _ _
  | some s =>
      unfold update_uidmap
      by_cases hs : s = "" <;> simp [hs]
      · exact evPred_rpure _ _
      · apply evPred_rbind (evPred_write_file (hw _))
        intro r
        cases r with
        | none => exact evPred_rpure _ _
        | some errno =>
            by_cases he : errno = EPERM <;> simp [he]
            · apply evPred_rbind (evPred_try_mapping_tool hfork hexec hlog hexit)
              intro st
              by_cases hst : st = 0 <;> simp [hst]
              · exact evPred_rpure _ _
              · exact evPred_bailR (hlog _) hexit
            · exact evPred_bailR (hlog _) hexit

theorem evPred_update_gidmap {path : Option String} {pid : Nat} {m : Option String}
    {P : Event → Prop}
    (hw : ∀ s, P (Event.writeFile (ProcPath.gid_map pid) s))
    (hfork : P Event.forkE)
    (hexec : ∀ a b c, P (Event.execveE a b c))
    (hlog : ∀ s, P (Event.logLine "fatal" s)) (hexit : P (Event.exitE 1)) :
    EvPred (update_gidmap path pid m) P := by
  cases m with
  | none => exact evPred_rpure _ _
  | some s =>
      unfold update_gidmap
      by_cases hs : s = "" <;> simp [hs]
      · exact evPred_rpure _ _
      · apply evPred_rbind (evPred_write_file (hw _))
        intro r
        cases r with
        | none => exact evPred_rpure _ _
        | some errno =>
            by_cases he : errno = EPERM <;> simp [he]
            · apply evPred_rbind (evPred_try_mapping_tool hfork hexec hlog hexit)
              intro st
              by_cases hst : st = 0 <;> simp [hst]
              · exact evPred_rpure _ _
              · exact evPred_bailR (hlog _) hexit
            · exact evPred_bailR (hlog _) hexit

theorem evPred_update_oom {d : Option String} {P : Event → Prop}
    (hw : ∀ s, P (Event.writeFile ProcPath.oom_score_adj s))
    (hlog : ∀ s, P (Event.logLine "fatal" s)) (hexit : P (Event.exitE 1)) :
    EvPred (update_oom_score_adj d) P := by
  cases d with
  | none => exact evPred_rpure _ _
  | some s =>
      unfold update_oom_score_adj
      by_cases hs : s = "" <;> simp [hs]
      · exact evPred_rpure _ _
      · apply evPred_rbind (evPred_write_file (hw _))
        intro r
        cases r with
        | none => exact evPred_rpure _ _
        | some _ => exact evPred_bailR (hlog _) hexit

theorem evPred_mount_shiftfs_list {cfg : Config} {l : List String} {P : Event → Prop}
    (h : ∀ s t, P (Event.mountE s t "shiftfs" 0)) :
    EvPred (mount_shiftfs_list cfg l) P := by
  induction l with
  | nil => exact evPred_rpure _ _
  | cons p rest ih =>
      unfold mount_shiftfs_list
      apply evPred_rbind
      · by_cases hp : p = cfg.rootfs <;> simp [hp]
        · exact evPred_mountCall (h _ _)
        · exact evPred_mountCall (h _ _)
      · intro ok
        cases ok
        · exact evPred_rpure _ _
        · exact ih

theorem evPred_mount_shiftfs {cfg : Config} {P : Event → Prop}
    (h : ∀ s t, P (Event.mountE s t "shiftfs" 0)) :
    EvPred (mount_shiftfs cfg) P :=
  evPred_mount_shiftfs_list h

theorem evPred_open_ns_fds {toks : List String} {P : Event → Prop}
    (ho : ∀ p, P (Event.openFile p))
    (hlog : ∀ s, P (Event.logLine "fatal" s)) (hexit : P (Event.exitE 1)) :
    EvPred (open_ns_fds toks) P := by
  induction toks with
  | nil => exact evPred_rpure _ _
  | cons t ts ih =>
      unfold open_ns_fds
      cases hsc : splitColon t with
      | none => exact evPred_bailR (hlog _) hexit
      | some kp =>
          exact evPred_rseq (evPred_emit (ho _))
            (evPred_rbind ih (fun rest => evPred_rpure _ _))

theorem evPred_do_setns {entries : List (String × Nat)} {P : Event → Prop}
    (hs : ∀ p n, P (Event.setnsE p n)) : EvPred (do_setns entries) P := by
  induction entries with
  | nil => exact evPred_rpure _ _
  | cons e rest ih =>
      unfold do_setns
      exact evPred_rseq (evPred_emit (hs _ _)) ih

theorem evPred_join_namespaces {s : String} {P : Event → Prop}
    (ho : ∀ p, P (Event.openFile p)) (hs : ∀ p n, P (Event.setnsE p n))
    (hlog : ∀ m, P (Event.logLine "fatal" m)) (hexit : P (Event.exitE 1)) :
    EvPred (join_namespaces s) P := by
  unfold join_namespaces
  by_cases hne : (nsToks s).isEmpty <;> simp [hne]
  · exact evPred_bailR (hlog _) hexit
  · exact evPred_rbind (evPred_open_ns_fds ho hlog hexit) (fun entries => evPred_do_setns hs)

theorem evPred_p1_prep {cfg : Config} {P : Event → Prop}
    (hmnt : ∀ s t f fl, P (Event.mountE s t f fl))
    (hlog : ∀ m, P (Event.logLine "fatal" m)) (hexit : P (Event.exitE 1)) :
    EvPred (p1_prep cfg) P := by
  unfold p1_prep
  split
  · apply evPred_rbind (evPred_mountCall (hmnt _ _ _ _))
    intro ok1
    split
    · exact evPred_bailR (hlog _) hexit
    · apply evPred_rbind
      · split
        · exact evPred_mountCall (hmnt _ _ _ _)
        · exact evPred_rpure _ _
      · intro mppd
        split
        · apply evPred_rbind (evPred_mountCall (hmnt _ _ _ _))
          intro ok2
          split
          · exact evPred_bailR (hlog _) hexit
          · exact evPred_rbind (evPred_mount_shiftfs (fun s t => hmnt _ _ _ _))
              (fun sfok => evPred_rpure _ _)
        · exact evPred_rpure _ _
  · exact evPred_rpure _ _

theorem evPred_p1_usermap {cfg : Config} {nu : Bool} {P : Event → Prop}
    (hprctl : ∀ v, P (Event.prctlDumpable v))
    (hss : ∀ t, P (Event.syncSend t)) (hsr : ∀ t, P (Event.syncRecv t))
    (hres : P (Event.setresuidE 0 0 0)) :
    EvPred (p1_usermap cfg nu) P := by
  unfold p1_usermap
  split
  · apply evPred_rseq
    · split
      · exact evPred_emit (hprctl _)
      · exact evPred_rpure _ _
    · apply evPred_rseq (evPred_emit (hss _))
      apply evPred_rseq (evPred_emit (hsr _))
      apply evPred_rseq
      · split
        · exact evPred_emit (hprctl _)
        · exact evPred_rpure _ _
      · exact evPred_emit hres
  · exact evPred_rpure _ _

theorem evPred_p1_deferred {cfg : Config} {mppd sfd : Bool} {P : Event → Prop}
    (hmnt : ∀ s t f fl, P (Event.mountE s t f fl))
    (hlog : ∀ m, P (Event.logLine "fatal" m)) (hexit : P (Event.exitE 1)) :
    EvPred (p1_deferred cfg mppd sfd) P := by
  unfold p1_deferred
  apply evPred_rseq
  · split
    · apply evPred_rbind (evPred_mountCall (hmnt _ _ _ _))
      intro ok
      split
      · exact evPred_bailR (hlog _) hexit
      · apply evPred_rbind (evPred_mountCall (hmnt _ _ _ _))
        intro ok2
        split
        · exact evPred_bailR (hlog _) hexit
        · exact evPred_rpure _ _
    · exact evPred_rpure _ _
  · split
    · apply evPred_rbind (evPred_mount_shiftfs (fun s t => hmnt _ _ _ _))
      intro ok
      split
      · exact evPred_bailR (hlog _) hexit
      · exact evPred_rpure _ _
    · exact evPred_rpure _ _

theorem evPred_p1_head {cfg : Config} {P : Event → Prop}
    (hopen : ∀ p, P (Event.openFile p))
    (hsetns : ∀ p n, P (Event.setnsE p n))
    (hu1 : P (Event.unshareE CLONE_NEWUSER))
    (hu2 : P (Event.unshareE CLONE_NEWNS))
    (hmnt : ∀ s t f fl, P (Event.mountE s t f fl))
    (hprctl : ∀ v, P (Event.prctlDumpable v))
    (hss : ∀ t, P (Event.syncSend t)) (hsr : ∀ t, P (Event.syncRecv t))
    (hres : P (Event.setresuidE 0 0 0))
    (hlog : ∀ m, P (Event.logLine "fatal" m)) (hexit : P (Event.exitE 1)) :
    EvPred (p1_head cfg) P := by
  unfold p1_head
  apply evPred_rseq
  · split
    · exact evPred_join_namespaces hopen hsetns hlog hexit
    · exact evPred_rpure _ _
  · apply evPred_rbind
    · split
      · exact evPred_rseq (evPred_emit hu1) (evPred_rpure _ _)
      · exact evPred_rpure _ _
    · intro fl_nu
      apply evPred_rbind
      · split
        · exact evPred_rseq (evPred_emit hu2) (evPred_rpure _ _)
        · exact evPred_rpure _ _
      · intro flags
        apply evPred_rbind (evPred_p1_prep hmnt hlog hexit)
        intro ms
        apply evPred_rseq (evPred_p1_usermap hprctl hss hsr hres)
        exact evPred_rseq (evPred_p1_deferred hmnt hlog hexit) (evPred_rpure _ _)

theorem evPred_p1_tail {flags : Nat} {P : Event → Prop}
    (hu3 : P (Event.unshareE (flags &&& compl32 CLONE_NEWCGROUP)))
    (hclone : P (Event.cloneE JUMP_INIT))
    (hss : ∀ t, P (Event.syncSend t)) (hsr : ∀ t, P (Event.syncRecv t))
    (hpid : P Event.sendPid) (hexit0 : P (Event.exitE 0)) :
    EvPred (p1_tail flags) P := by
  unfold p1_tail
  apply evPred_rseq (evPred_emit hu3)
  apply evPred_rseq (evPred_emit hclone)
  apply evPred_rseq (evPred_emit (hss _))
  apply evPred_rseq (evPred_emit hpid)
  apply evPred_rseq (evPred_emit (hsr _))
  exact evPred_rseq (evPred_emit (hss _)) (evPred_emit hexit0)

theorem evPred_p1_stage {cfg : Config} {P : Event → Prop}
    (hopen : ∀ p, P (Event.openFile p))
    (hsetns : ∀ p n, P (Event.setnsE p n))
    (hu1 : P (Event.unshareE CLONE_NEWUSER))
    (hu2 : P (Event.unshareE CLONE_NEWNS))
    (hu3 : ∀ f, P (Event.unshareE (f &&& compl32 CLONE_NEWCGROUP)))
    (hmnt : ∀ s t f fl, P (Event.mountE s t f fl))
    (hprctl : ∀ v, P (Event.prctlDumpable v))
    (hss : ∀ t, P (Event.syncSend t)) (hsr : ∀ t, P (Event.syncRecv t))
    (hres : P (Event.setresuidE 0 0 0))
    (hclone : P (Event.cloneE JUMP_INIT))
    (hpid : P Event.sendPid) (hexit0 : P (Event.exitE 0))
    (hlog : ∀ m, P (Event.logLine "fatal" m)) (hexit : P (Event.exitE 1)) :
    EvPred (p1_stage cfg) P := by
  unfold p1_stage
  exact evPred_rbind
    (evPred_p1_head hopen hsetns hu1 hu2 hmnt hprctl hss hsr hres hlog hexit)
    (fun flags => evPred_p1_tail (hu3 flags) hclone hss hsr hpid hexit0)

theorem evPred_p2_stage {cfg : Config} {b : Nat} {P : Event → Prop}
    (hprctl : ∀ v, P (Event.prctlDumpable v))
    (hw : ∀ s, P (Event.writeFile ProcPath.oom_score_adj s))
    (hsr : ∀ t, P (Event.syncRecv t)) (hss : ∀ t, P (Event.syncSend t))
    (hsid : P Event.setsidE) (huid : P (Event.setuidE 0)) (hgid : P (Event.setgidE 0))
    (hsg : P Event.setgroupsCall)
    (hrd : P (Event.readInitByte b))
    (huc : P (Event.unshareE CLONE_NEWCGROUP))
    (hlog : ∀ m, P (Event.logLine "fatal" m)) (hexit : P (Event.exitE 1)) :
    EvPred (p2_stage cfg b) P := by
  unfold p2_stage
  apply evPred_rseq (evPred_emit (hprctl _))
  apply evPred_rseq (evPred_update_oom hw hlog hexit)
  apply evPred_rseq (evPred_emit (hprctl _))
  apply evPred_rseq (evPred_emit (hsr _))
  apply evPred_rseq (evPred_emit hsid)
  apply evPred_rseq (evPred_emit huid)
  apply evPred_rseq (evPred_emit hgid)
  apply evPred_rseq
  · split
    · exact evPred_emit hsg
    · exact evPred_rpure _ _
  · apply evPred_rseq
    · split
      · apply evPred_rseq (evPred_emit hrd)
        split
        · exact evPred_emit huc
        · exact evPred_bailR (hlog _) hexit
      · exact evPred_rpure _ _
    · exact evPred_emit (hss _)

/-! ## Run-shape lemmas for join_namespaces -/

theorem open_ns_fds_run (toks : List String) (w : W)
    (hp : ∀ t ∈ toks, (splitColon t).isSome = true) :
    open_ns_fds toks w =
      ((toks.filterMap splitColon).map (fun kp => Event.openFile kp.2),
       Except.ok ((toks.filterMap splitColon).map (fun kp => (kp.2, nsflag kp.1))), w) := by
  induction toks generalizing w with
  | nil => simp [open_ns_fds, rpure]
  | cons t ts ih =>
      cases hsc : splitColon t with
      | none =>
          have := hp t (by simp)
          rw [hsc] at this
          cases this
      | some kp =>
          have hrest : ∀ u ∈ ts, (splitColon u).isSome = true := by
            intro u hu
            exact hp u (by simp [hu])
          unfold open_ns_fds
          rw [hsc]
          dsimp only
          have hemit : emit (Event.openFile kp.2) w = ([Event.openFile kp.2], Except.ok (), w) := rfl
          rw [rseq_run_ok hemit]
          rw [rbind_run_ok (ih w hrest)]
          simp [rpure, List.filterMap_cons, hsc]

theorem do_setns_run (entries : List (String × Nat)) (w : W) :
    do_setns entries w =
      (entries.map (fun e => Event.setnsE e.1 e.2), Except.ok (), w) := by
  induction entries generalizing w with
  | nil => simp [do_setns, rpure]
  | cons e rest ih =>
      unfold do_setns
      have hemit : emit (Event.setnsE e.1 e.2) w = ([Event.setnsE e.1 e.2], Except.ok (), w) := rfl
      rw [rseq_run_ok hemit, ih w]
      simp

theorem join_namespaces_run (s : String) (w : W) (hne : nsToks s ≠ [])
    (hp : ∀ t ∈ nsToks s, (splitColon t).isSome = true) :
    join_namespaces s w =
      ((nsEntries s).map (fun kp => Event.openFile kp.2) ++
         (nsEntries s).map (fun kp => Event.setnsE kp.2 (nsflag kp.1)),
       Except.ok (), w) := by
  unfold join_namespaces
  have hemp : (nsToks s).isEmpty = false := by
    cases h : nsToks s with
    | nil => exact absurd h hne
    | cons a b => simp [List.isEmpty]
  rw [if_neg (by simp [hemp])]
  rw [rbind_run_ok (open_ns_fds_run (nsToks s) w hp)]
  rw [do_setns_run]
  unfold nsEntries
  simp [Function.comp]

/-! ## Claim theorems -/

/-- C9: when writing a setgroups policy (`allow` or `deny`) to
`/proc/pid/setgroups` fails with ENOENT, `update_setgroups` returns
successfully and reports nothing; any other errno from that write is fatal
(a `fatal` log line and exit 1). -/
theorem claim_C9_setgroups_enoent (pid : Nat) (pol : Policy) (n : Nat) (w w2 : W)
    (hpol : pol ≠ Policy.SETGROUPS_DEFAULT)
    (hw : w.wr = [some ENOENT]) (hw2 : w2.wr = [some n]) (hn : n ≠ ENOENT) :
    (runOutcome (update_setgroups pid pol) w = Except.ok () ∧
      runEvents (update_setgroups pid pol) w = []) ∧
    (isOk (runOutcome (update_setgroups pid pol) w2) = false ∧
      Event.logLine "fatal" "failed to write setgroups" ∈
        runEvents (update_setgroups pid pol) w2 ∧
      Event.exitE 1 ∈ runEvents (update_setgroups pid pol) w2) := by
  rcases w with ⟨wr, mnt, helper⟩
  rcases w2 with ⟨wr2, mnt2, helper2⟩
  simp at hw hw2
  subst hw
  subst hw2
  cases pol with
  | SETGROUPS_DEFAULT => exact absurd rfl hpol
  | SETGROUPS_ALLOW =>
      constructor
      · simp [update_setgroups, policyString, write_file, nextWr, rbind, rseq,
          rpure, emit, runOutcome, runEvents]
      · simp [update_setgroups, policyString, write_file, nextWr, rbind, rseq,
          rpure, emit, bailR, runOutcome, runEvents, isOk, hn]
  | SETGROUPS_DENY =>
      constructor
      · simp [update_setgroups, policyString, write_file, nextWr, rbind, rseq,
          rpure, emit, runOutcome, runEvents]
      · simp [update_setgroups, policyString, write_file, nextWr, rbind, rseq,
          rpure, emit, bailR, runOutcome, runEvents, isOk, hn]

/-- Witness for C9 at pid 7, policy `deny`, other errno EACCES. -/
theorem claim_C9_witness :
    ((Policy.SETGROUPS_DENY ≠ Policy.SETGROUPS_DEFAULT) ∧
      (W.mk [some ENOENT] [] []).wr = [some ENOENT] ∧
      (W.mk [some EACCES] [] []).wr = [some EACCES] ∧ EACCES ≠ ENOENT) ∧
    ((runOutcome (update_setgroups 7 Policy.SETGROUPS_DENY) (W.mk [some ENOENT] [] []) =
        Except.ok () ∧
      runEvents (update_setgroups 7 Policy.SETGROUPS_DENY) (W.mk [some ENOENT] [] []) = []) ∧
    (isOk (runOutcome (update_setgroups 7 Policy.SETGROUPS_DENY) (W.mk [some EACCES] [] [])) =
        false ∧
      Event.logLine "fatal" "failed to write setgroups" ∈
        runEvents (update_setgroups 7 Policy.SETGROUPS_DENY) (W.mk [some EACCES] [] []) ∧
      Event.exitE 1 ∈
        runEvents (update_setgroups 7 Policy.SETGROUPS_DENY) (W.mk [some EACCES] [] []))) :=
  ⟨⟨by decide, rfl, rfl, by decide⟩,
    claim_C9_setgroups_enoent 7 Policy.SETGROUPS_DENY EACCES
      (W.mk [some ENOENT] [] []) (W.mk [some EACCES] [] [])
      (by decide) rfl rfl (by decide)⟩

/-- C8: if the direct write to `/proc/pid/uid_map` (resp. `gid_map`) fails
with EPERM while the helper path is NULL, the ID-map writer bails with
"mapping tool not present" (a `fatal` log line and exit 1) and performs no
execve at all. -/
theorem claim_C8_null_helper_fatal (pid : Nat) (m : String) (hm : m ≠ "") (w w2 : W)
    (hw : w.wr = [some EPERM]) (hw2 : w2.wr = [some EPERM]) :
    (runOutcome (update_uidmap none pid (some m)) w =
        Except.error "mapping tool not present" ∧
      runEvents (update_uidmap none pid (some m)) w =
        [Event.logLine "fatal" "mapping tool not present", Event.exitE 1] ∧
      (runEvents (update_uidmap none pid (some m)) w).countP isExecveEv = 0) ∧
    (runOutcome (update_gidmap none pid (some m)) w2 =
        Except.error "mapping tool not present" ∧
      runEvents (update_gidmap none pid (some m)) w2 =
        [Event.logLine "fatal" "mapping tool not present", Event.exitE 1] ∧
      (runEvents (update_gidmap none pid (some m)) w2).countP isExecveEv = 0) := by
  rcases w with ⟨wr, mnt, helper⟩
  rcases w2 with ⟨wr2, mnt2, helper2⟩
  simp at hw hw2
  subst hw
  subst hw2
  constructor
  · simp [update_uidmap, write_file, nextWr, rbind, rseq, rpure, emit, bailR,
      try_mapping_tool, runOutcome, runEvents, hm, isExecveEv]
  · simp [update_gidmap, write_file, nextWr, rbind, rseq, rpure, emit, bailR,
      try_mapping_tool, runOutcome, runEvents, hm, isExecveEv]

/-- Witness for C8 at pid 5, map "0 1000 1". -/
theorem claim_C8_witness :
    (("0 1000 1" : String) ≠ "" ∧ (W.mk [some EPERM] [] []).wr = [some EPERM]) ∧
    (runOutcome (update_uidmap none 5 (some "0 1000 1")) (W.mk [some EPERM] [] []) =
        Except.error "mapping tool not present" ∧
      runEvents (update_uidmap none 5 (some "0 1000 1")) (W.mk [some EPERM] [] []) =
        [Event.logLine "fatal" "mapping tool not present", Event.exitE 1] ∧
      (runEvents (update_uidmap none 5 (some "0 1000 1"))
          (W.mk [some EPERM] [] [])).countP isExecveEv = 0) ∧
    (runOutcome (update_gidmap none 5 (some "0 1000 1")) (W.mk [some EPERM] [] []) =
        Except.error "mapping tool not present" ∧
      runEvents (update_gidmap none 5 (some "0 1000 1")) (W.mk [some EPERM] [] []) =
        [Event.logLine "fatal" "mapping tool not present", Event.exitE 1] ∧
      (runEvents (update_gidmap none 5 (some "0 1000 1"))
          (W.mk [some EPERM] [] [])).countP isExecveEv = 0) := by
  have h := claim_C8_null_helper_fatal 5 "0 1000 1" (by decide)
    (W.mk [some EPERM] [] []) (W.mk [some EPERM] [] []) rfl rfl
  exact ⟨⟨by decide, rfl⟩, h.1, h.2⟩

theorem nl_attr_apply_none_of_unknown (t : Nat) (p : List Nat) (cfg : Config)
    (hk : knownNlAttr t = false) : nl_attr_apply t p cfg = none := by
  unfold knownNlAttr at hk
  simp only [Bool.or_eq_false_iff, beq_eq_false_iff_ne, ne_eq] at hk
  obtain ⟨⟨⟨⟨⟨⟨⟨⟨⟨⟨⟨⟨⟨⟨h1, h2⟩, h3⟩, h4⟩, h5⟩, h6⟩, h7⟩, h8⟩, h9⟩, h10⟩, h11⟩, h12⟩, h13⟩, h14⟩, h15⟩ := hk
  unfold nl_attr_apply
  rw [if_neg h1, if_neg h2, if_neg h3, if_neg h4, if_neg h5, if_neg h6, if_neg h7,
    if_neg h8, if_neg h9, if_neg h10, if_neg h11, if_neg h12, if_neg h13, if_neg h14,
    if_neg h15]

/-- C7: a netlink payload containing an attribute whose type is outside the
fixed attribute-type set makes the parse abort (it never completes) through
`bail`, i.e. with exit code 1 and a log line at level `fatal`. -/
theorem claim_C7_unknown_attr_fatal (attrs : List (Nat × List Nat)) (cfg : Config)
    (w : W) (a : Nat × List Nat) (ha : a ∈ attrs) (hk : knownNlAttr a.1 = false) :
    isOk (runOutcome (nl_parse_attrs attrs cfg) w) = false ∧
    Event.logLine "fatal" "unknown netlink message type" ∈
      runEvents (nl_parse_attrs attrs cfg) w ∧
    Event.exitE 1 ∈ runEvents (nl_parse_attrs attrs cfg) w := by
  induction attrs generalizing cfg w with
  | nil => cases ha
  | cons hd rest ih =>
      rcases hd with ⟨t, p⟩
      cases hap : nl_attr_apply t p cfg with
      | none =>
          simp [nl_parse_attrs, hap, bailR, runOutcome, runEvents, isOk]
      | some cfg2 =>
          have hmem : a ∈ rest := by
            rcases List.mem_cons.mp ha with heq | hmem
            · subst heq
              rw [nl_attr_apply_none_of_unknown t p cfg hk] at hap
              cases hap
            · exact hmem
          have := ih cfg2 w hmem
          simpa [nl_parse_attrs, hap, runOutcome, runEvents] using this

/-- Witness for C7: a payload with a clone-flags attribute followed by an
unknown attribute type 12345. -/
theorem claim_C7_witness :
    (((12345 : Nat), ([] : List Nat)) ∈
        [(CLONE_FLAGS_ATTR, [0, 0, 0, 2]), (12345, ([] : List Nat))] ∧
      knownNlAttr 12345 = false) ∧
    (isOk (runOutcome
        (nl_parse_attrs [(CLONE_FLAGS_ATTR, [0, 0, 0, 2]), (12345, [])] {}) wDefault) =
        false ∧
      Event.logLine "fatal" "unknown netlink message type" ∈
        runEvents (nl_parse_attrs [(CLONE_FLAGS_ATTR, [0, 0, 0, 2]), (12345, [])] {})
          wDefault ∧
      Event.exitE 1 ∈
        runEvents (nl_parse_attrs [(CLONE_FLAGS_ATTR, [0, 0, 0, 2]), (12345, [])] {})
          wDefault) :=
  ⟨⟨by decide, by decide⟩,
    claim_C7_unknown_attr_fatal [(CLONE_FLAGS_ATTR, [0, 0, 0, 2]), (12345, [])] {}
      wDefault (12345, []) (by decide) (by decide)⟩

/-- C4 counterexample: at helper path `/usr/bin/newuidmap`, pid 1234, and
map text `"0 100000 65536\n1 200000 1"` (Scenario C of the spec), the argv
built by `try_mapping_tool` consists of the helper path, the pid and the six
whitespace-split tokens but is NOT terminated by a NULL entry: the token
scan hits the end of the string at the final `"1"` and breaks out of the
loop before the NULL-appending branch is reached. -/
theorem claim_C4_counterexample :
    try_mapping_argv "/usr/bin/newuidmap" 1234 "0 100000 65536\n1 200000 1" =
      [some "/usr/bin/newuidmap", some "1234", some "0", some "100000",
        some "65536", some "1", some "200000", some "1"] ∧
    (none : Option String) ∉
      try_mapping_argv "/usr/bin/newuidmap" 1234 "0 100000 65536\n1 200000 1" := by
  constructor
  · rfl
  · decide

/-- C4 (amended): when the direct uid_map (resp. gid_map) write fails with
EPERM and a helper path is configured, the ID-map writer forks a child that
execves the helper with argv = helper path, decimal pid, and the tokens
obtained by splitting the map text in place on `'\n'`/`' '` (empty
environment); the argv receives the terminating NULL entry only when the
token scan exhausts the string, e.g. when the map text ends in a newline.
The writer waits for the helper and treats any non-zero exit status as
fatal. -/
theorem claim_C4_amended (app : String) (pid : Nat) (m : String) (hm : m ≠ "")
    (h : Nat) (w : W) (hw : w.wr = [some EPERM]) (hh : w.helper = [h]) :
    (Event.forkE ∈ runEvents (update_uidmap (some app) pid (some m)) w ∧
      Event.execveE app (try_mapping_argv app pid m) [] ∈
        runEvents (update_uidmap (some app) pid (some m)) w ∧
      (h = 0 → runOutcome (update_uidmap (some app) pid (some m)) w = Except.ok ()) ∧
      (h ≠ 0 → isOk (runOutcome (update_uidmap (some app) pid (some m)) w) = false ∧
        Event.exitE 1 ∈ runEvents (update_uidmap (some app) pid (some m)) w)) ∧
    (Event.forkE ∈ runEvents (update_gidmap (some app) pid (some m)) w ∧
      Event.execveE app (try_mapping_argv app pid m) [] ∈
        runEvents (update_gidmap (some app) pid (some m)) w ∧
      (h = 0 → runOutcome (update_gidmap (some app) pid (some m)) w = Except.ok ()) ∧
      (h ≠ 0 → isOk (runOutcome (update_gidmap (some app) pid (some m)) w) = false ∧
        Event.exitE 1 ∈ runEvents (update_gidmap (some app) pid (some m)) w)) ∧
    tokenizeMap 18 "0 100000 65536\n".data =
      [some "0", some "100000", some "65536", none] := by
  rcases w with ⟨wr, mnt, helper⟩
  simp at hw hh
  subst hw
  subst hh
  refine ⟨?_, ?_, by decide⟩
  · by_cases h0 : h = 0 <;>
      simp [update_uidmap, write_file, nextWr, nextHelper, rbind, rseq, rpure, emit,
        bailR, try_mapping_tool, runOutcome, runEvents, hm, isOk, h0]
  · by_cases h0 : h = 0 <;>
      simp [update_gidmap, write_file, nextWr, nextHelper, rbind, rseq, rpure, emit,
        bailR, try_mapping_tool, runOutcome, runEvents, hm, isOk, h0]

/-- Witness for C4 (amended) at the Scenario C helper, pid 1234, a
newline-terminated map, and helper exit status 0. -/
theorem claim_C4_amended_witness :
    (("0 100000 65536\n" : String) ≠ "" ∧
      (W.mk [some EPERM] [] [0]).wr = [some EPERM] ∧
      (W.mk [some EPERM] [] [0]).helper = [0]) ∧
    Event.forkE ∈
      runEvents (update_uidmap (some "/usr/bin/newuidmap") 1234 (some "0 100000 65536\n"))
        (W.mk [some EPERM] [] [0]) ∧
    Event.execveE "/usr/bin/newuidmap"
        (try_mapping_argv "/usr/bin/newuidmap" 1234 "0 100000 65536\n") [] ∈
      runEvents (update_uidmap (some "/usr/bin/newuidmap") 1234 (some "0 100000 65536\n"))
        (W.mk [some EPERM] [] [0]) ∧
    runOutcome (update_uidmap (some "/usr/bin/newuidmap") 1234 (some "0 100000 65536\n"))
        (W.mk [some EPERM] [] [0]) = Except.ok () ∧
    tokenizeMap 18 "0 100000 65536\n".data =
      [some "0", some "100000", some "65536", none] := by
  have h := claim_C4_amended "/usr/bin/newuidmap" 1234 "0 100000 65536\n" (by decide)
    0 (W.mk [some EPERM] [] [0]) rfl rfl
  exact ⟨⟨by decide, rfl, rfl⟩, h.1.1, h.1.2.1, h.1.2.2.1 rfl, h.2.2⟩

/-- C5: for a non-empty, well-formed ns-path list, `join_namespaces` opens
a file descriptor for every listed namespace path before performing any
`setns`, and the `setns` calls happen in exactly the order given (as do the
opens). -/
theorem claim_C5_open_before_setns (s : String) (w : W) (hne : nsToks s ≠ [])
    (hp : ∀ t ∈ nsToks s, (splitColon t).isSome = true) :
    beforeAll isOpenEv isSetnsEv (runEvents (join_namespaces s) w) ∧
    (runEvents (join_namespaces s) w).filter isOpenEv =
      (nsEntries s).map (fun kp => Event.openFile kp.2) ∧
    (runEvents (join_namespaces s) w).filter isSetnsEv =
      (nsEntries s).map (fun kp => Event.setnsE kp.2 (nsflag kp.1)) := by
  have hrun := join_namespaces_run s w hne hp
  have hev : runEvents (join_namespaces s) w =
      (nsEntries s).map (fun kp => Event.openFile kp.2) ++
        (nsEntries s).map (fun kp => Event.setnsE kp.2 (nsflag kp.1)) := by
    unfold runEvents
    rw [hrun]
  rw [hev]
  refine ⟨?_, ?_, ?_⟩
  · apply beforeAll_append
    · intro e he
      rcases List.mem_map.mp he with ⟨kp, _, rfl⟩
      rfl
    · intro e he
      rcases List.mem_map.mp he with ⟨kp, _, rfl⟩
      rfl
  · rw [List.filter_append]
    have h1 : ((nsEntries s).map (fun kp => Event.openFile kp.2)).filter isOpenEv =
        (nsEntries s).map (fun kp => Event.openFile kp.2) := by
      apply List.filter_eq_self.mpr
      intro e he
      rcases List.mem_map.mp he with ⟨kp, _, rfl⟩
      rfl
    have h2 : ((nsEntries s).map (fun kp => Event.setnsE kp.2 (nsflag kp.1))).filter
        isOpenEv = [] := by
      apply List.filter_eq_nil.mpr
      intro e he
      rcases List.mem_map.mp he with ⟨kp, _, rfl⟩
      simp [isOpenEv]
    rw [h1, h2, List.append_nil]
  · rw [List.filter_append]
    have h1 : ((nsEntries s).map (fun kp => Event.openFile kp.2)).filter isSetnsEv =
        [] := by
      apply List.filter_eq_nil.mpr
      intro e he
      rcases List.mem_map.mp he with ⟨kp, _, rfl⟩
      simp [isSetnsEv]
    have h2 : ((nsEntries s).map (fun kp => Event.setnsE kp.2 (nsflag kp.1))).filter
        isSetnsEv = (nsEntries s).map (fun kp => Event.setnsE kp.2 (nsflag kp.1)) := by
      apply List.filter_eq_self.mpr
      intro e he
      rcases List.mem_map.mp he with ⟨kp, _, rfl⟩
      rfl
    rw [h1, h2, List.nil_append]

/-- Witness for C5 on the list `user:/proc/5/ns/user,mnt:/proc/5/ns/mnt`. -/
theorem claim_C5_witness :
    (nsToks "user:/proc/5/ns/user,mnt:/proc/5/ns/mnt" ≠ [] ∧
      ∀ t ∈ nsToks "user:/proc/5/ns/user,mnt:/proc/5/ns/mnt",
        (splitColon t).isSome = true) ∧
    (beforeAll isOpenEv isSetnsEv
        (runEvents (join_namespaces "user:/proc/5/ns/user,mnt:/proc/5/ns/mnt") wDefault) ∧
      (runEvents (join_namespaces "user:/proc/5/ns/user,mnt:/proc/5/ns/mnt")
          wDefault).filter isOpenEv =
        (nsEntries "user:/proc/5/ns/user,mnt:/proc/5/ns/mnt").map
          (fun kp => Event.openFile kp.2) ∧
      (runEvents (join_namespaces "user:/proc/5/ns/user,mnt:/proc/5/ns/mnt")
          wDefault).filter isSetnsEv =
        (nsEntries "user:/proc/5/ns/user,mnt:/proc/5/ns/mnt").map
          (fun kp => Event.setnsE kp.2 (nsflag kp.1))) :=
  ⟨⟨by decide, by decide⟩,
    claim_C5_open_before_setns "user:/proc/5/ns/user,mnt:/proc/5/ns/mnt" wDefault
      (by decide) (by decide)⟩

/-- C10: an ns-path entry with an unrecognized kind string is not rejected:
`nsflag` falls back to 0, `join_namespaces` performs `setns(fd, 0)` for that
entry, and the run completes successfully. -/
theorem claim_C10_unknown_ns_kind (s : String) (w : W) (kind path : String)
    (hne : nsToks s ≠ []) (hp : ∀ t ∈ nsToks s, (splitColon t).isSome = true)
    (hmem : (kind, path) ∈ nsEntries s)
    (hk : kind ∉ (["cgroup", "ipc", "mnt", "net", "pid", "user", "uts"] : List String)) :
    nsflag kind = 0 ∧
    Event.setnsE path 0 ∈ runEvents (join_namespaces s) w ∧
    isOk (runOutcome (join_namespaces s) w) = true := by
  simp only [List.mem_cons, not_or] at hk
  obtain ⟨k1, k2, k3, k4, k5, k6, k7, -⟩ := hk
  have hflag : nsflag kind = 0 := by
    unfold nsflag
    rw [if_neg k1, if_neg k2, if_neg k3, if_neg k4, if_neg k5, if_neg k6, if_neg k7]
  have hrun := join_namespaces_run s w hne hp
  refine ⟨hflag, ?_, ?_⟩
  · unfold runEvents
    rw [hrun]
    simp only []
    apply List.mem_append.mpr
    right
    have : Event.setnsE path 0 = Event.setnsE (kind, path).2 (nsflag (kind, path).1) := by
      simp [hflag]
    rw [this]
    exact List.mem_map_of_mem _ hmem
  · unfold runOutcome
    rw [hrun]
    rfl

/-- Witness for C10 on the entry `foo:/proc/9/ns/net`. -/
theorem claim_C10_witness :
    (nsToks "foo:/proc/9/ns/net" ≠ [] ∧
      (∀ t ∈ nsToks "foo:/proc/9/ns/net", (splitColon t).isSome = true) ∧
      ("foo", "/proc/9/ns/net") ∈ nsEntries "foo:/proc/9/ns/net" ∧
      "foo" ∉ (["cgroup", "ipc", "mnt", "net", "pid", "user", "uts"] : List String)) ∧
    (nsflag "foo" = 0 ∧
      Event.setnsE "/proc/9/ns/net" 0 ∈
        runEvents (join_namespaces "foo:/proc/9/ns/net") wDefault ∧
      isOk (runOutcome (join_namespaces "foo:/proc/9/ns/net") wDefault) = true) :=
  ⟨⟨by decide, by decide, by decide, by decide⟩,
    claim_C10_unknown_ns_kind "foo:/proc/9/ns/net" wDefault "foo" "/proc/9/ns/net"
      (by decide) (by decide) (by decide) (by decide)⟩

/-- C1: in P0's USERMAP_PLS handler, any setgroups policy write to
`/proc/<P1>/setgroups` happens before any write to `/proc/<P1>/gid_map`
(for any configuration, in particular those whose clone_flags contain
CLONE_NEWUSER, which are the ones for which P1 requests the mapping), and
for `is_rootless_euid && !is_setgroup` the string `deny` is written to
`/proc/<P1>/setgroups` (when the write syscalls succeed). -/
theorem claim_C1_setgroups_before_gidmap (cfg : Config) (child : Nat) (w : W) :
    (hasFlag cfg.cloneflags CLONE_NEWUSER = true →
      beforeAll (isSetgroupsWriteTo child) (isGidMapWriteTo child)
        (runEvents (p0_handle_usermap cfg child) w)) ∧
    (cfg.isRootlessEuid = true → cfg.isSetgroup = false → w.wr = [] →
      Event.writeFile (ProcPath.setgroups child) "deny" ∈
        runEvents (p0_handle_usermap cfg child) w) := by
  have hA_noq : EvPred
      (if cfg.isRootlessEuid && !cfg.isSetgroup then
        update_setgroups child Policy.SETGROUPS_DENY
      else rpure ())
      (fun e => isGidMapWriteTo child e = false) := by
    split
    · exact evPred_update_setgroups (fun s => rfl) (fun m => rfl) rfl
    · exact evPred_rpure _ _
  have hB_nop : EvPred
      (rseq (update_uidmap cfg.uidmappath child cfg.uidmap)
        (rseq (update_gidmap cfg.gidmappath child cfg.gidmap)
          (emit (Event.syncSend SYNC_USERMAP_ACK))))
      (fun e => isSetgroupsWriteTo child e = false) := by
    apply evPred_rseq
    · exact evPred_update_uidmap (fun s => rfl) rfl (fun a b c => rfl) (fun m => rfl) rfl
    · apply evPred_rseq
      · exact evPred_update_gidmap (fun s => rfl) rfl (fun a b c => rfl) (fun m => rfl) rfl
      · exact evPred_emit rfl
  constructor
  · intro _
    unfold p0_handle_usermap runEvents
    rcases hA : (if cfg.isRootlessEuid && !cfg.isSetgroup then
        update_setgroups child Policy.SETGROUPS_DENY
      else rpure ()) w with ⟨esA, rA, wA⟩
    cases rA with
    | ok u =>
        rw [rseq_run_ok hA]
        simp only []
        apply beforeAll_append
        · intro e he
          exact hA_noq w e (by rw [hA]; exact he)
        · intro e he
          exact hB_nop wA e he
    | error m =>
        rw [rseq_run_err hA]
        apply beforeAll_of_no_q
        intro e he
        exact hA_noq w e (by rw [hA]; exact he)
  · intro hr hs hwr
    rcases w with ⟨wr, mnt, helper⟩
    simp at hwr
    subst hwr
    have hA : (if cfg.isRootlessEuid && !cfg.isSetgroup then
        update_setgroups child Policy.SETGROUPS_DENY
      else rpure ()) (W.mk [] mnt helper) =
        ([Event.writeFile (ProcPath.setgroups child) "deny"], Except.ok (),
          W.mk [] mnt helper) := by
      rw [hr, hs]
      simp [update_setgroups, policyString, write_file, nextWr, rbind, rseq, emit, rpure]
    unfold p0_handle_usermap runEvents
    rw [rseq_run_ok hA]
    simp

/-- Witness for C1 at the rootless single-entry configuration, child pid 7. -/
theorem claim_C1_witness :
    (hasFlag cfgRootless.cloneflags CLONE_NEWUSER = true ∧
      cfgRootless.isRootlessEuid = true ∧ cfgRootless.isSetgroup = false ∧
      wDefault.wr = []) ∧
    beforeAll (isSetgroupsWriteTo 7) (isGidMapWriteTo 7)
      (runEvents (p0_handle_usermap cfgRootless 7) wDefault) ∧
    Event.writeFile (ProcPath.setgroups 7) "deny" ∈
      runEvents (p0_handle_usermap cfgRootless 7) wDefault :=
  ⟨⟨by decide, by decide, by decide, rfl⟩,
    (claim_C1_setgroups_before_gidmap cfgRootless 7 wDefault).1 (by decide),
    (claim_C1_setgroups_before_gidmap cfgRootless 7 wDefault).2 (by decide) (by decide) rfl⟩

/-! ## Run-shape lemmas for P2 -/

theorem update_oom_run_none {w : W} :
    update_oom_score_adj none w = ([], Except.ok (), w) := rfl

theorem update_oom_run_empty {w : W} :
    update_oom_score_adj (some "") w = ([], Except.ok (), w) := by
  simp [update_oom_score_adj, rpure]

theorem update_oom_run_some {s : String} {w : W} (hs : s ≠ "") (hw : w.wr = []) :
    update_oom_score_adj (some s) w =
      ([Event.writeFile ProcPath.oom_score_adj s], Except.ok (), w) := by
  rcases w with ⟨wr, mnt, helper⟩
  simp at hw
  subst hw
  simp [update_oom_score_adj, write_file, nextWr, rbind, rseq, emit, rpure, hs]

/-- The full trace of P2 when the oom_score_adj step succeeds. -/
theorem p2_run_of_oom_ok {cfg : Config} {b : Nat} {w : W} {esO : List Event} {wO : W}
    (hoom : update_oom_score_adj cfg.oomScoreAdj w = (esO, Except.ok (), wO)) :
    p2_stage cfg b w =
      ((Event.prctlDumpable 1 :: esO) ++
        ([Event.prctlDumpable 0, Event.syncRecv SYNC_GRANDCHILD, Event.setsidE,
          Event.setuidE 0, Event.setgidE 0] ++
         ((if !cfg.isRootlessEuid && cfg.isSetgroup then [Event.setgroupsCall] else []) ++
          ((if hasFlag cfg.cloneflags CLONE_NEWCGROUP then
              Event.readInitByte b ::
                (if b = CREATECGROUPNS then [Event.unshareE CLONE_NEWCGROUP]
                 else [Event.logLine "fatal" "received unknown synchronisation value",
                   Event.exitE 1])
            else []) ++
           (if hasFlag cfg.cloneflags CLONE_NEWCGROUP ∧ b ≠ CREATECGROUPNS then []
            else [Event.syncSend SYNC_CHILD_READY])))),
       (if hasFlag cfg.cloneflags CLONE_NEWCGROUP ∧ b ≠ CREATECGROUPNS then
          Except.error "received unknown synchronisation value"
        else Except.ok ()), wO) := by
  by_cases h1 : (!cfg.isRootlessEuid && cfg.isSetgroup) = true <;>
  by_cases h2 : hasFlag cfg.cloneflags CLONE_NEWCGROUP = true <;>
  by_cases h3 : b = CREATECGROUPNS <;>
    simp [p2_stage, rseq, rbind, emit, unshareCall, bailR, rpure, hoom, h1, h2, h3]

/-- The trace of P2 when the oom_score_adj write fails (bail before the
GRANDCHILD sync). -/
theorem p2_run_of_oom_err {cfg : Config} {b : Nat} {w : W} {esO : List Event}
    {m : String} {wO : W}
    (hoom : update_oom_score_adj cfg.oomScoreAdj w = (esO, Except.error m, wO)) :
    p2_stage cfg b w = (Event.prctlDumpable 1 :: esO, Except.error m, wO) := by
  simp [p2_stage, rseq, rbind, emit, hoom]

/-- C2: `CLONE_NEWCGROUP` never reaches an `unshare` call before the `0x80`
handoff byte: every `unshare` performed by P1 has the cgroup bit masked out
(the bulk unshare uses `cloneflags & ~CLONE_NEWCGROUP`); in P2 any
cgroup-carrying `unshare` comes after the init-pipe byte read; and when
`clone_flags` contain `CLONE_NEWCGROUP`, P2 reads exactly one byte,
unshares the cgroup namespace iff that byte is `0x80`, and treats any other
byte as fatal. -/
theorem claim_C2_cgroup_handoff (cfg : Config) :
    (∀ w : W, ∀ e ∈ runEvents (p1_stage cfg) w, isUnshareCgroup e = false) ∧
    (∀ (b : Nat) (w : W),
      beforeAll isReadByteEv isUnshareCgroup (runEvents (p2_stage cfg b) w)) ∧
    (∀ (b : Nat) (w : W), hasFlag cfg.cloneflags CLONE_NEWCGROUP = true → w.wr = [] →
      (runEvents (p2_stage cfg b) w).countP isReadByteEv = 1 ∧
      (b = CREATECGROUPNS →
        Event.unshareE CLONE_NEWCGROUP ∈ runEvents (p2_stage cfg b) w ∧
        isOk (runOutcome (p2_stage cfg b) w) = true) ∧
      (b ≠ CREATECGROUPNS →
        isOk (runOutcome (p2_stage cfg b) w) = false ∧
        Event.exitE 1 ∈ runEvents (p2_stage cfg b) w ∧
        Event.logLine "fatal" "received unknown synchronisation value" ∈
          runEvents (p2_stage cfg b) w ∧
        (runEvents (p2_stage cfg b) w).countP isUnshareCgroup = 0)) := by
  have hmask : ∀ f : Nat, isUnshareCgroup (Event.unshareE (f &&& compl32 CLONE_NEWCGROUP)) =
      false := by
    intro f
    have h : (compl32 CLONE_NEWCGROUP).testBit 25 = false := by decide
    show (f &&& compl32 CLONE_NEWCGROUP).testBit 25 = false
    rw [Nat.testBit_and, h, Bool.and_false]
  have hoomP : ∀ (d : Option String),
      EvPred (update_oom_score_adj d)
        (fun e => isReadByteEv e = false ∧ isUnshareCgroup e = false) :=
    fun d => evPred_update_oom (fun s => ⟨rfl, rfl⟩) (fun m => ⟨rfl, rfl⟩) ⟨rfl, rfl⟩
  refine ⟨?_, ?_, ?_⟩
  · intro w
    exact evPred_p1_stage (P := fun e => isUnshareCgroup e = false)
      (fun p => rfl) (fun p n => rfl) (by decide) (by decide) hmask
      (fun s t f fl => rfl) (fun v => rfl) (fun t => rfl) (fun t => rfl) rfl rfl rfl rfl
      (fun m => rfl) rfl w
  · intro b w
    rcases hoom : update_oom_score_adj cfg.oomScoreAdj w with ⟨esO, rO, wO⟩
    cases rO with
    | error m =>
        unfold runEvents
        rw [p2_run_of_oom_err hoom]
        apply beforeAll_of_no_q
        intro e he
        rcases List.mem_cons.mp he with rfl | he
        · rfl
        · exact (hoomP cfg.oomScoreAdj w e (by rw [hoom]; exact he)).2
    | ok u =>
        cases u
        unfold runEvents
        rw [p2_run_of_oom_ok hoom]
        simp only []
        apply beforeAll_prepend_neutral
        · intro e he
          rcases List.mem_cons.mp he with rfl | he
          · exact ⟨rfl, rfl⟩
          · exact hoomP cfg.oomScoreAdj w e (by rw [hoom]; exact he)
        apply beforeAll_prepend_neutral
        · intro e he
          fin_cases he <;> exact ⟨rfl, rfl⟩
        apply beforeAll_prepend_neutral
        · intro e he
          split at he
          · rcases List.mem_singleton.mp he with rfl
            exact ⟨rfl, rfl⟩
          · cases he
        by_cases h2 : hasFlag cfg.cloneflags CLONE_NEWCGROUP = true
        · by_cases h3 : b = CREATECGROUPNS
          · rw [if_pos h2, if_pos h3, if_neg (by simp [h2, h3])]
            show beforeAll isReadByteEv isUnshareCgroup
              ([Event.readInitByte b] ++
                [Event.unshareE CLONE_NEWCGROUP, Event.syncSend SYNC_CHILD_READY])
            apply beforeAll_append
            · intro e he
              rcases List.mem_singleton.mp he with rfl
              rfl
            · intro e he
              rcases List.mem_cons.mp he with rfl | he
              · rfl
              · rcases List.mem_singleton.mp he with rfl
                rfl
          · apply beforeAll_of_no_q
            intro e he
            rw [if_pos h2, if_neg h3, if_pos (⟨h2, h3⟩ :
              hasFlag cfg.cloneflags CLONE_NEWCGROUP = true ∧ b ≠ CREATECGROUPNS)] at he
            simp at he
            rcases he with rfl | rfl | rfl <;> rfl
        · apply beforeAll_of_no_q
          intro e he
          rw [if_neg h2, if_neg (by simp [h2])] at he
          simp at he
          subst he
          rfl
  · intro b w h2 hw
    have hoomEx : ∃ esO, update_oom_score_adj cfg.oomScoreAdj w = (esO, Except.ok (), w) ∧
        esO.countP isReadByteEv = 0 ∧ esO.countP isUnshareCgroup = 0 := by
      cases hd : cfg.oomScoreAdj with
      | none => exact ⟨[], update_oom_run_none, rfl, rfl⟩
      | some s =>
          by_cases hs : s = ""
          · subst hs
            exact ⟨[], update_oom_run_empty, rfl, rfl⟩
          · exact ⟨[Event.writeFile ProcPath.oom_score_adj s],
              update_oom_run_some hs hw, rfl, rfl⟩
    obtain ⟨esO, hoom, hcnt, hcnt2⟩ := hoomEx
    have hrun := p2_run_of_oom_ok (b := b) hoom
    unfold runEvents runOutcome
    rw [hrun]
    by_cases h3 : b = CREATECGROUPNS
    · have hcond : ¬(hasFlag cfg.cloneflags CLONE_NEWCGROUP = true ∧ b ≠ CREATECGROUPNS) := by
        simp [h2, h3]
      simp only [if_pos h2, if_pos h3, if_neg hcond]
      refine ⟨?_, fun _ => ⟨?_, rfl⟩, fun hb => absurd h3 hb⟩
      · by_cases h1 : (!cfg.isRootlessEuid && cfg.isSetgroup) = true <;>
          simp [h1, List.countP_append, List.countP_cons, hcnt, isReadByteEv]
      · show Event.unshareE CLONE_NEWCGROUP ∈
          (Event.prctlDumpable 1 :: esO) ++ _
        apply List.mem_append_right
        apply List.mem_append_right
        apply List.mem_append_right
        apply List.mem_append_left
        simp
    · have hcond : hasFlag cfg.cloneflags CLONE_NEWCGROUP = true ∧ b ≠ CREATECGROUPNS :=
        ⟨h2, h3⟩
      simp only [if_pos h2, if_neg h3, if_pos hcond]
      refine ⟨?_, fun hb => absurd hb h3, fun _ => ⟨rfl, ?_, ?_, ?_⟩⟩
      · by_cases h1 : (!cfg.isRootlessEuid && cfg.isSetgroup) = true <;>
          simp [h1, List.countP_append, List.countP_cons, hcnt, isReadByteEv]
      · show Event.exitE 1 ∈ (Event.prctlDumpable 1 :: esO) ++ _
        apply List.mem_append_right
        apply List.mem_append_right
        apply List.mem_append_right
        apply List.mem_append_left
        simp
      · show Event.logLine "fatal" "received unknown synchronisation value" ∈
          (Event.prctlDumpable 1 :: esO) ++ _
        apply List.mem_append_right
        apply List.mem_append_right
        apply List.mem_append_right
        apply List.mem_append_left
        simp
      · by_cases h1 : (!cfg.isRootlessEuid && cfg.isSetgroup) = true <;>
          simp [h1, List.countP_append, List.countP_cons, hcnt2, isUnshareCgroup]

/-- Witness for C2 at the Scenario A configuration (all namespaces
including cgroup), handoff byte `0x80` (and `0x33` for the fatal case). -/
theorem claim_C2_witness :
    (hasFlag cfgScenA.cloneflags CLONE_NEWCGROUP = true ∧ wDefault.wr = []) ∧
    (runEvents (p1_stage cfgScenA) wDefault).countP isUnshareCgroup = 0 ∧
    beforeAll isReadByteEv isUnshareCgroup
      (runEvents (p2_stage cfgScenA CREATECGROUPNS) wDefault) ∧
    (runEvents (p2_stage cfgScenA CREATECGROUPNS) wDefault).countP isReadByteEv = 1 ∧
    Event.unshareE CLONE_NEWCGROUP ∈
      runEvents (p2_stage cfgScenA CREATECGROUPNS) wDefault ∧
    isOk (runOutcome (p2_stage cfgScenA 51) wDefault) = false := by
  have h := claim_C2_cgroup_handoff cfgScenA
  refine ⟨⟨by decide, rfl⟩, ?_, h.2.1 CREATECGROUPNS wDefault,
    (h.2.2 CREATECGROUPNS wDefault (by decide) rfl).1,
    ((h.2.2 CREATECGROUPNS wDefault (by decide) rfl).2.1 rfl).1,
    ((h.2.2 51 wDefault (by decide) rfl).2.2 (by decide)).1⟩
  apply List.countP_eq_zero.mpr
  intro e he
  simp [h.1 wDefault e he]

/-- C6 counterexample: for a parsed configuration without an
`oom_score_adj` attribute (`cfgNoOom`), `/proc/self/oom_score_adj` is
written only once across P0 and P2 — P0 writes the hardcoded `-999`, but
P2's `update_oom_score_adj` returns without writing because the configured
value is NULL — so the claim's "written twice for every parsed
configuration" is false. -/
theorem claim_C6_counterexample :
    (runEvents (nsexec_preamble cfgNoOom) wDefault ++
        runEvents (p2_stage cfgNoOom CREATECGROUPNS) wDefault).countP isOomWrite = 1 ∧
    ¬((runEvents (nsexec_preamble cfgNoOom) wDefault ++
        runEvents (p2_stage cfgNoOom CREATECGROUPNS) wDefault).countP isOomWrite = 2) := by
  constructor <;> decide

/-- C6 (amended): for every parsed configuration whose `oom_score_adj` is
present and non-empty, `/proc/self/oom_score_adj` is written exactly twice:
the hardcoded `-999` early in P0 before the stage clone, and the configured
value in P2 with `PR_SET_DUMPABLE` set to 1 immediately before the write
and restored to 0 immediately after. -/
theorem claim_C6_amended (cfg : Config) (v : String) (b : Nat) (w1 w2 : W)
    (hv : cfg.oomScoreAdj = some v) (hne : v ≠ "") (h1 : w1.wr = []) (h2 : w2.wr = []) :
    (∃ l, runEvents (nsexec_preamble cfg) w1 =
        Event.writeFile ProcPath.oom_score_adj "-999" :: l ∧
      Event.cloneE JUMP_CHILD ∈ l ∧ l.countP isOomWrite = 0) ∧
    (∃ l2, runEvents (p2_stage cfg b) w2 =
        Event.prctlDumpable 1 :: Event.writeFile ProcPath.oom_score_adj v ::
          Event.prctlDumpable 0 :: l2 ∧ l2.countP isOomWrite = 0) ∧
    (runEvents (nsexec_preamble cfg) w1 ++
      runEvents (p2_stage cfg b) w2).countP isOomWrite = 2 := by
  have hpre : nsexec_preamble cfg w1 =
      (Event.writeFile ProcPath.oom_score_adj "-999" ::
        ((if cfg.namespaces.isSome then [Event.prctlDumpable 0] else []) ++
          [Event.cloneE JUMP_CHILD]), Except.ok (), w1) := by
    have hoom : update_oom_score_adj (some "-999") w1 =
        ([Event.writeFile ProcPath.oom_score_adj "-999"], Except.ok (), w1) :=
      update_oom_run_some (by decide) h1
    by_cases hns : cfg.namespaces.isSome = true <;>
      simp [nsexec_preamble, rseq, rbind, emit, rpure, hoom, hns]
  have hoom2 : update_oom_score_adj cfg.oomScoreAdj w2 =
      ([Event.writeFile ProcPath.oom_score_adj v], Except.ok (), w2) := by
    rw [hv]
    exact update_oom_run_some hne h2
  have hp2 := p2_run_of_oom_ok (b := b) hoom2
  refine ⟨⟨(if cfg.namespaces.isSome then [Event.prctlDumpable 0] else []) ++
      [Event.cloneE JUMP_CHILD], ?_, ?_, ?_⟩, ?_, ?_⟩
  · unfold runEvents
    rw [hpre]
  · simp
  · by_cases hns : cfg.namespaces.isSome = true <;>
      simp [hns, isOomWrite, List.countP_append, List.countP_cons]
  · refine ⟨[Event.syncRecv SYNC_GRANDCHILD, Event.setsidE, Event.setuidE 0,
      Event.setgidE 0] ++
      ((if !cfg.isRootlessEuid && cfg.isSetgroup then [Event.setgroupsCall] else []) ++
       ((if hasFlag cfg.cloneflags CLONE_NEWCGROUP then
           Event.readInitByte b ::
             (if b = CREATECGROUPNS then [Event.unshareE CLONE_NEWCGROUP]
              else [Event.logLine "fatal" "received unknown synchronisation value",
                Event.exitE 1])
         else []) ++
        (if hasFlag cfg.cloneflags CLONE_NEWCGROUP ∧ b ≠ CREATECGROUPNS then []
         else [Event.syncSend SYNC_CHILD_READY]))), ?_, ?_⟩
    · unfold runEvents
      rw [hp2]
      simp
    · by_cases hsg : (!cfg.isRootlessEuid && cfg.isSetgroup) = true <;>
      by_cases hf : hasFlag cfg.cloneflags CLONE_NEWCGROUP = true <;>
      by_cases hb : b = CREATECGROUPNS <;>
        simp [hsg, hf, hb, isOomWrite, List.countP_append, List.countP_cons]
  · unfold runEvents
    rw [hpre, hp2]
    by_cases hns : cfg.namespaces.isSome = true <;>
    by_cases hsg : (!cfg.isRootlessEuid && cfg.isSetgroup) = true <;>
    by_cases hf : hasFlag cfg.cloneflags CLONE_NEWCGROUP = true <;>
    by_cases hb : b = CREATECGROUPNS <;>
      simp [hns, hsg, hf, hb, isOomWrite, List.countP_append, List.countP_cons]

/-- Witness for C6 (amended) at the Scenario A configuration (configured
oom_score_adj "500"), byte `0x80`. -/
theorem claim_C6_amended_witness :
    (cfgScenA.oomScoreAdj = some "500" ∧ ("500" : String) ≠ "" ∧ wDefault.wr = []) ∧
    ((∃ l, runEvents (nsexec_preamble cfgScenA) wDefault =
        Event.writeFile ProcPath.oom_score_adj "-999" :: l ∧
      Event.cloneE JUMP_CHILD ∈ l ∧ l.countP isOomWrite = 0) ∧
    (∃ l2, runEvents (p2_stage cfgScenA CREATECGROUPNS) wDefault =
        Event.prctlDumpable 1 :: Event.writeFile ProcPath.oom_score_adj "500" ::
          Event.prctlDumpable 0 :: l2 ∧ l2.countP isOomWrite = 0) ∧
    (runEvents (nsexec_preamble cfgScenA) wDefault ++
      runEvents (p2_stage cfgScenA CREATECGROUPNS) wDefault).countP isOomWrite = 2) :=
  ⟨⟨rfl, by decide, rfl⟩,
    claim_C6_amended cfgScenA "500" CREATECGROUPNS wDefault wDefault rfl (by decide)
      rfl rfl⟩


/-! ## Run-shape and path lemmas for P1 -/

theorem mountCall_run (src tgt fs : String) (fl : Nat) (w : W) :
    mountCall src tgt fs fl w =
      ((if w.mnt.headD true then [Event.mountE src tgt fs fl] else []),
        Except.ok (w.mnt.headD true), W.mk w.wr w.mnt.tail w.helper) := by
  rcases w with ⟨wr, mnt, helper⟩
  cases mnt with
  | nil => simp [mountCall, nextMnt, rbind, rseq, emit, rpure]
  | cons a rest => cases a <;> simp [mountCall, nextMnt, rbind, rseq, emit, rpure]

theorem p1_prep_ok_bind {cfg : Config} {w : W} {es : List Event} {ms : Bool × Bool}
    {w2 : W} (hprep : cfg.prepRootfs = true)
    (h : p1_prep cfg w = (es, Except.ok ms, w2)) :
    (cfg.makeParentPriv = true ∧ ms.1 = false) ∨
      Event.mountE "." "." "bind" (MS_BIND ||| MS_REC) ∈ es := by
  unfold p1_prep at h
  rw [if_pos hprep] at h
  rw [rbind_run_ok (mountCall_run "" "/" "" cfg.rootfsProp w)] at h
  cases hm1 : w.mnt.headD true with
  | false =>
      rw [hm1] at h
      simp [bailR] at h
  | true =>
      rw [hm1] at h
      simp only [Bool.not_true, Bool.false_eq_true, if_false, if_true] at h
      by_cases hmpp : cfg.makeParentPriv = true
      · rw [if_pos hmpp] at h
        rw [rbind_run_ok (mountCall_run "" cfg.parentMount "" MS_PRIVATE
          (W.mk w.wr w.mnt.tail w.helper))] at h
        cases hm2 : (W.mk w.wr w.mnt.tail w.helper).mnt.headD true with
        | false =>
            rw [hm2] at h
            simp only [Bool.not_true, Bool.false_eq_true, if_false, Bool.or_false,
              hmpp] at h
            simp [rpure] at h
            exact Or.inl ⟨hmpp, by rw [← h.2.1]⟩
        | true =>
            rw [hm2] at h
            simp only [Bool.not_true, Bool.false_eq_true, if_false, if_true,
              Bool.or_true] at h
            rw [rbind_run_ok (mountCall_run "." "." "bind" (MS_BIND ||| MS_REC)
              (W.mk w.wr w.mnt.tail.tail w.helper))] at h
            cases hm3 : (W.mk w.wr w.mnt.tail.tail w.helper).mnt.headD true with
            | false =>
                rw [hm3] at h
                simp [bailR] at h
            | true =>
                rw [hm3] at h
                simp only [Bool.not_true, Bool.false_eq_true, if_false, if_true] at h
                rcases hsf : mount_shiftfs cfg
                    (W.mk w.wr w.mnt.tail.tail.tail w.helper) with ⟨esS, rS, wS⟩
                cases rS with
                | ok sfok =>
                    rw [rbind_run_ok hsf] at h
                    simp [rpure] at h
                    refine Or.inr ?_
                    rw [← h.1]
                    simp
                | error m =>
                    rw [rbind_run_err hsf] at h
                    simp at h
      · rw [if_neg hmpp] at h
        simp only [Bool.not_eq_true] at hmpp
        have hpure : rpure (α := Bool) false (W.mk w.wr w.mnt.tail w.helper) =
            ([], Except.ok false, W.mk w.wr w.mnt.tail w.helper) := rfl
        rw [rbind_run_ok hpure] at h
        simp only [hmpp, Bool.not_false, Bool.true_or, if_true] at h
        rw [rbind_run_ok (mountCall_run "." "." "bind" (MS_BIND ||| MS_REC)
          (W.mk w.wr w.mnt.tail w.helper))] at h
        cases hm2 : (W.mk w.wr w.mnt.tail w.helper).mnt.headD true with
        | false =>
            rw [hm2] at h
            simp [bailR] at h
        | true =>
            rw [hm2] at h
            simp only [Bool.not_true, Bool.false_eq_true, if_false, if_true] at h
            rcases hsf : mount_shiftfs cfg
                (W.mk w.wr w.mnt.tail.tail w.helper) with ⟨esS, rS, wS⟩
            cases rS with
            | ok sfok =>
                rw [rbind_run_ok hsf] at h
                simp [rpure] at h
                refine Or.inr ?_
                rw [← h.1]
                simp
            | error m =>
                rw [rbind_run_err hsf] at h
                simp at h

theorem rbind_assoc {α β γ : Type} (x : Run α) (f : α → Run β) (g : β → Run γ) :
    rbind (rbind x f) g = rbind x (fun a => rbind (f a) g) := by
  funext w
  rcases hx : x w with ⟨es, r, w2⟩
  cases r with
  | ok a =>
      rcases hf : f a w2 with ⟨es2, r2, w3⟩
      cases r2 with
      | ok b =>
          have hxf : rbind x f w = (es ++ es2, Except.ok b, w3) := by
            rw [rbind_run_ok hx, hf]
          have hfg : rbind (f a) g w2 = (es2 ++ (g b w3).1, (g b w3).2) :=
            rbind_run_ok hf
          rw [rbind_run_ok hxf, rbind_run_ok (x := x) hx, hfg]
          simp
      | error m =>
          have hxf : rbind x f w = (es ++ es2, Except.error m, w3) := by
            rw [rbind_run_ok hx, hf]
          have hfg : rbind (f a) g w2 = (es2, Except.error m, w3) := rbind_run_err hf
          rw [rbind_run_err hxf, rbind_run_ok (x := x) hx, hfg]
  | error m =>
      rw [rbind_run_err (rbind_run_err hx), rbind_run_err (x := x) hx]

theorem p1_deferred_ok_bind {cfg : Config} {sfd : Bool} {w : W} {es : List Event}
    {w2 : W} (hmpp : cfg.makeParentPriv = true)
    (h : p1_deferred cfg false sfd w = (es, Except.ok (), w2)) :
    Event.mountE "." "." "bind" (MS_BIND ||| MS_REC) ∈ es := by
  unfold p1_deferred rseq at h
  simp only [hmpp, Bool.not_false, Bool.and_true, if_true] at h
  rw [rbind_assoc] at h
  rw [rbind_run_ok (mountCall_run "" cfg.parentMount "" MS_PRIVATE w)] at h
  cases hm1 : w.mnt.headD true with
  | false =>
      rw [hm1] at h
      simp [rbind, bailR] at h
  | true =>
      rw [hm1] at h
      simp only [Bool.not_true, Bool.false_eq_true, if_false, if_true] at h
      rw [rbind_assoc] at h
      rw [rbind_run_ok (mountCall_run "." "." "bind" (MS_BIND ||| MS_REC)
        (W.mk w.wr w.mnt.tail w.helper))] at h
      cases hm2 : (W.mk w.wr w.mnt.tail w.helper).mnt.headD true with
      | false =>
          rw [hm2] at h
          simp [rbind, bailR] at h
      | true =>
          rw [hm2] at h
          simp only [Bool.not_true, Bool.false_eq_true, if_false, if_true] at h
          have hes := congrArg Prod.fst h
          simp only [] at hes
          rw [← hes]
          simp

theorem p1_head_ok_bind {cfg : Config} {w : W} {es : List Event} {flags : Nat}
    {w2 : W} (hprep : cfg.prepRootfs = true)
    (h : p1_head cfg w = (es, Except.ok flags, w2)) :
    Event.mountE "." "." "bind" (MS_BIND ||| MS_REC) ∈ es := by
  unfold p1_head at h
  rcases hJ : (if cfg.namespaces.isSome then join_namespaces (cfg.namespaces.getD "")
      else rpure ()) w with ⟨esJ, rJ, wJ⟩
  cases rJ with
  | error m =>
      rw [rseq_run_err hJ] at h
      simp at h
  | ok u =>
      cases u
      rw [rseq_run_ok hJ] at h
      rcases hB : (if hasFlag cfg.cloneflags CLONE_NEWUSER then
          rseq (unshareCall CLONE_NEWUSER)
            (rpure (clearFlag cfg.cloneflags CLONE_NEWUSER, true))
        else rpure (cfg.cloneflags, false)) wJ with ⟨esB, rB, wB⟩
      cases rB with
      | error m =>
          rw [rbind_run_err hB] at h
          simp at h
      | ok fl_nu =>
          rw [rbind_run_ok hB] at h
          rcases hC : (if hasFlag fl_nu.1 CLONE_NEWNS then
              rseq (unshareCall CLONE_NEWNS) (rpure (clearFlag fl_nu.1 CLONE_NEWNS))
            else rpure fl_nu.1) wB with ⟨esC, rC, wC⟩
          cases rC with
          | error m =>
              rw [rbind_run_err hC] at h
              simp at h
          | ok flags1 =>
              rw [rbind_run_ok hC] at h
              rcases hP : p1_prep cfg wC with ⟨esP, rP, wP⟩
              cases rP with
              | error m =>
                  rw [rbind_run_err hP] at h
                  simp at h
              | ok ms =>
                  rw [rbind_run_ok hP] at h
                  rcases hU : p1_usermap cfg fl_nu.2 wP with ⟨esU, rU, wU⟩
                  cases rU with
                  | error m =>
                      rw [rseq_run_err hU] at h
                      simp at h
                  | ok u2 =>
                      cases u2
                      rw [rseq_run_ok hU] at h
                      rcases hD : p1_deferred cfg ms.1 ms.2 wU with ⟨esD, rD, wD⟩
                      cases rD with
                      | error m =>
                          rw [rseq_run_err hD] at h
                          simp at h
                      | ok u3 =>
                          cases u3
                          rw [rseq_run_ok hD] at h
                          have hes := congrArg Prod.fst h
                          simp only [rpure, List.append_nil] at hes
                          rcases p1_prep_ok_bind hprep hP with hleft | hmem
                          · rw [hleft.2] at hD
                            have hmemD := p1_deferred_ok_bind hleft.1 hD
                            rw [← hes]
                            simp only [List.mem_append]
                            tauto
                          · rw [← hes]
                            simp only [List.mem_append]
                            tauto

theorem p1_tail_run (flags : Nat) (w : W) :
    p1_tail flags w =
      ([Event.unshareE (flags &&& compl32 CLONE_NEWCGROUP), Event.cloneE JUMP_INIT,
        Event.syncSend SYNC_RECVPID_PLS, Event.sendPid,
        Event.syncRecv SYNC_RECVPID_ACK, Event.syncSend SYNC_CHILD_READY,
        Event.exitE 0], Except.ok (), w) := by
  simp [p1_tail, rseq, rbind, emit, unshareCall]

theorem mount_shiftfs_list_all_ok (cfg : Config) (l : List String) (w : W)
    (hm : w.mnt = []) :
    mount_shiftfs_list cfg l w =
      (l.map (fun p => if p = cfg.rootfs then Event.mountE "." "." "shiftfs" 0
          else Event.mountE p p "shiftfs" 0), Except.ok true, w) := by
  rcases w with ⟨wr, mnt, helper⟩
  simp at hm
  subst hm
  induction l with
  | nil => simp [mount_shiftfs_list, rpure]
  | cons p rest ih =>
      unfold mount_shiftfs_list
      by_cases hp : p = cfg.rootfs <;>
        simp [hp, rbind, mountCall, nextMnt, rseq, emit, rpure, ih]

theorem mount_shiftfs_all_ok (cfg : Config) (w : W) (hm : w.mnt = []) :
    mount_shiftfs cfg w =
      ((shiftfsToks cfg).map (fun p => if p = cfg.rootfs then Event.mountE "." "." "shiftfs" 0
          else Event.mountE p p "shiftfs" 0), Except.ok true, w) :=
  mount_shiftfs_list_all_ok cfg (shiftfsToks cfg) w hm

theorem c3_part1 (cfg : Config) (w : W) (hprep : cfg.prepRootfs = true) :
    precededBy isCloneInitEv isBindSelfEv (runEvents (p1_stage cfg) w) := by
  have hnoclone : EvPred (p1_head cfg) (fun e => isCloneInitEv e = false) :=
    evPred_p1_head (P := fun e => isCloneInitEv e = false)
      (fun p => rfl) (fun p n => rfl) rfl rfl (fun s t f fl => rfl) (fun v => rfl)
      (fun t => rfl) (fun t => rfl) rfl (fun m => rfl) rfl
  unfold p1_stage runEvents
  rcases hh : p1_head cfg w with ⟨es, r, w2⟩
  cases r with
  | error m =>
      rw [rbind_run_err hh]
      apply precededBy_of_no_q
      intro e he
      exact hnoclone w e (by rw [hh]; exact he)
  | ok flags =>
      rw [rbind_run_ok hh]
      simp only []
      apply precededBy_append_left
      · exact ⟨_, p1_head_ok_bind hprep hh, by decide⟩
      · intro e he
        exact hnoclone w e (by rw [hh]; exact he)

theorem p1_prep_run_scenD (cfg : Config) (w : W) (rest : List Bool)
    (hprep : cfg.prepRootfs = true) (hmpp : cfg.makeParentPriv = true)
    (hw : w.mnt = true :: false :: rest) :
    p1_prep cfg w =
      ([Event.mountE "" "/" "" cfg.rootfsProp], Except.ok (false, false),
        W.mk w.wr rest w.helper) := by
  rcases w with ⟨wr, mnt, helper⟩
  simp at hw
  subst hw
  unfold p1_prep
  rw [if_pos hprep, if_pos hmpp]
  simp [rbind, mountCall, nextMnt, rseq, emit, rpure, hmpp]

theorem p1_usermap_run (cfg : Config) (w : W) :
    p1_usermap cfg true w =
      ((if cfg.namespaces.isSome then [Event.prctlDumpable 1] else []) ++
        ([Event.syncSend SYNC_USERMAP_PLS] ++ ([Event.syncRecv SYNC_USERMAP_ACK] ++
          ((if cfg.namespaces.isSome then [Event.prctlDumpable 0] else []) ++
            [Event.setresuidE 0 0 0]))), Except.ok (), w) := by
  by_cases hns : cfg.namespaces.isSome = true <;>
    simp [p1_usermap, rseq, rbind, emit, rpure, hns]

theorem p1_deferred_run_scenD (cfg : Config) (w : W)
    (hprep : cfg.prepRootfs = true) (hmpp : cfg.makeParentPriv = true)
    (hm : w.mnt = []) :
    p1_deferred cfg false false w =
      ([Event.mountE "" cfg.parentMount "" MS_PRIVATE,
        Event.mountE "." "." "bind" (MS_BIND ||| MS_REC)] ++
        (shiftfsToks cfg).map (fun p => if p = cfg.rootfs then
            Event.mountE "." "." "shiftfs" 0 else Event.mountE p p "shiftfs" 0),
       Except.ok (), w) := by
  rcases w with ⟨wr, mnt, helper⟩
  simp at hm
  subst hm
  unfold p1_deferred
  rw [if_pos (by simp [hmpp]), if_pos (by simp [hprep])]
  have hsf := mount_shiftfs_all_ok cfg (W.mk wr [] helper) rfl
  simp [rseq, rbind, mountCall, nextMnt, emit, rpure, hsf]

theorem p1_deferred_run_fail (cfg : Config) (w : W) (hmpp : cfg.makeParentPriv = true)
    (hm : w.mnt = [false]) :
    p1_deferred cfg false false w =
      ([Event.logLine "fatal" "failed to set rootfs parent mount propagation to private",
        Event.exitE 1],
       Except.error "failed to set rootfs parent mount propagation to private",
       W.mk w.wr [] w.helper) := by
  rcases w with ⟨wr, mnt, helper⟩
  simp at hm
  subst hm
  unfold p1_deferred
  rw [if_pos (by simp [hmpp])]
  simp [rseq, rbind, mountCall, nextMnt, emit, rpure, bailR]

theorem joinpart_run (cfg : Config) (w : W) (hjoin : nsJoinOkP cfg) :
    ∃ esJ, (if cfg.namespaces.isSome then join_namespaces (cfg.namespaces.getD "")
        else rpure ()) w = (esJ, Except.ok (), w) ∧
      ∀ e ∈ esJ, (∃ p, e = Event.openFile p) ∨ ∃ p n, e = Event.setnsE p n := by
  rcases hjoin with hn | ⟨s, hs, hne, hp⟩
  · refine ⟨[], ?_, by simp⟩
    rw [if_neg (by simp [hn])]
    rfl
  · have hps : ∀ t ∈ nsToks s, (splitColon t).isSome = true := hp
    refine ⟨(nsEntries s).map (fun kp => Event.openFile kp.2) ++
      (nsEntries s).map (fun kp => Event.setnsE kp.2 (nsflag kp.1)), ?_, ?_⟩
    · rw [if_pos (by simp [hs])]
      have : cfg.namespaces.getD "" = s := by rw [hs]; rfl
      rw [this]
      exact join_namespaces_run s w hne hps
    · intro e he
      rcases List.mem_append.mp he with he | he
      · rcases List.mem_map.mp he with ⟨kp, _, rfl⟩
        exact Or.inl ⟨kp.2, rfl⟩
      · rcases List.mem_map.mp he with ⟨kp, _, rfl⟩
        exact Or.inr ⟨kp.2, nsflag kp.1, rfl⟩

theorem p1_scenD_head (cfg : Config) (w : W)
    (hprep : cfg.prepRootfs = true) (hmpp : cfg.makeParentPriv = true)
    (huser : hasFlag cfg.cloneflags CLONE_NEWUSER = true)
    (hjoin : nsJoinOkP cfg) (hw : w.mnt = [true, false]) :
    ∃ esJ esC flags1,
      (∀ e ∈ esJ, (∃ p, e = Event.openFile p) ∨ ∃ p n, e = Event.setnsE p n) ∧
      (∀ e ∈ esC, e = Event.unshareE CLONE_NEWNS) ∧
      p1_head cfg w =
        (esJ ++ ([Event.unshareE CLONE_NEWUSER] ++ (esC ++
          ([Event.mountE "" "/" "" cfg.rootfsProp] ++
           (((if cfg.namespaces.isSome then [Event.prctlDumpable 1] else []) ++
             ([Event.syncSend SYNC_USERMAP_PLS] ++ ([Event.syncRecv SYNC_USERMAP_ACK] ++
               ((if cfg.namespaces.isSome then [Event.prctlDumpable 0] else []) ++
                 [Event.setresuidE 0 0 0])))) ++
            (([Event.mountE "" cfg.parentMount "" MS_PRIVATE,
               Event.mountE "." "." "bind" (MS_BIND ||| MS_REC)] ++
              (shiftfsToks cfg).map (fun p => if p = cfg.rootfs then
                  Event.mountE "." "." "shiftfs" 0 else Event.mountE p p "shiftfs" 0)) ++
             []))))),
         Except.ok flags1, W.mk w.wr [] w.helper) := by
  obtain ⟨esJ, hJ, hJmem⟩ := joinpart_run cfg w hjoin
  have hB : (if hasFlag cfg.cloneflags CLONE_NEWUSER then
      rseq (unshareCall CLONE_NEWUSER)
        (rpure (clearFlag cfg.cloneflags CLONE_NEWUSER, true))
    else rpure (cfg.cloneflags, false)) w =
      ([Event.unshareE CLONE_NEWUSER],
        Except.ok (clearFlag cfg.cloneflags CLONE_NEWUSER, true), w) := by
    rw [if_pos huser]
    simp [rseq, rbind, emit, rpure, unshareCall]
  obtain ⟨esC, flags1, hC, hCmem⟩ :
      ∃ esC flags1, (if hasFlag (clearFlag cfg.cloneflags CLONE_NEWUSER) CLONE_NEWNS then
          rseq (unshareCall CLONE_NEWNS)
            (rpure (clearFlag (clearFlag cfg.cloneflags CLONE_NEWUSER) CLONE_NEWNS))
        else rpure (clearFlag cfg.cloneflags CLONE_NEWUSER)) w =
          (esC, Except.ok flags1, w) ∧
        ∀ e ∈ esC, e = Event.unshareE CLONE_NEWNS := by
    by_cases hns2 : hasFlag (clearFlag cfg.cloneflags CLONE_NEWUSER) CLONE_NEWNS = true
    · refine ⟨[Event.unshareE CLONE_NEWNS],
        clearFlag (clearFlag cfg.cloneflags CLONE_NEWUSER) CLONE_NEWNS, ?_, by simp⟩
      rw [if_pos hns2]
      simp [rseq, rbind, emit, rpure, unshareCall]
    · refine ⟨[], clearFlag cfg.cloneflags CLONE_NEWUSER, ?_, by simp⟩
      rw [if_neg hns2]
      rfl
  have hP := p1_prep_run_scenD cfg w [] hprep hmpp (by rw [hw])
  have hU := p1_usermap_run cfg (W.mk w.wr [] w.helper)
  have hD := p1_deferred_run_scenD cfg (W.mk w.wr [] w.helper) hprep hmpp rfl
  refine ⟨esJ, esC, flags1, hJmem, hCmem, ?_⟩
  unfold p1_head
  rw [rseq_run_ok hJ]
  rw [rbind_run_ok hB]
  simp only []
  rw [rbind_run_ok hC]
  simp only []
  rw [rbind_run_ok hP]
  simp only []
  rw [rseq_run_ok hU]
  simp only []
  rw [rseq_run_ok hD]
  simp [rpure]

theorem p1_scenD_props (cfg : Config) (w : W)
    (hprep : cfg.prepRootfs = true) (hmpp : cfg.makeParentPriv = true)
    (huser : hasFlag cfg.cloneflags CLONE_NEWUSER = true)
    (hpm : cfg.parentMount ≠ "/")
    (hjoin : nsJoinOkP cfg) (hw : w.mnt = [true, false]) :
    beforeAll isSetresuidEv (isParentPrivEv cfg) (runEvents (p1_stage cfg) w) ∧
    beforeAll (isParentPrivEv cfg) isBindSelfEv (runEvents (p1_stage cfg) w) ∧
    beforeAll isBindSelfEv isShiftfsEv (runEvents (p1_stage cfg) w) ∧
    Event.mountE "" cfg.parentMount "" MS_PRIVATE ∈ runEvents (p1_stage cfg) w ∧
    Event.mountE "." "." "bind" (MS_BIND ||| MS_REC) ∈ runEvents (p1_stage cfg) w ∧
    isOk (runOutcome (p1_stage cfg) w) = true := by
  obtain ⟨esJ, esC, flags1, hJmem, hCmem, hHead⟩ :=
    p1_scenD_head cfg w hprep hmpp huser hjoin hw
  have htail := p1_tail_run flags1 (W.mk w.wr [] w.helper)
  have htr : runEvents (p1_stage cfg) w =
      esJ ++ ([Event.unshareE CLONE_NEWUSER] ++ (esC ++
        ([Event.mountE "" "/" "" cfg.rootfsProp] ++
         (((if cfg.namespaces.isSome then [Event.prctlDumpable 1] else []) ++
           ([Event.syncSend SYNC_USERMAP_PLS] ++ ([Event.syncRecv SYNC_USERMAP_ACK] ++
             ((if cfg.namespaces.isSome then [Event.prctlDumpable 0] else []) ++
               [Event.setresuidE 0 0 0])))) ++
          (([Event.mountE "" cfg.parentMount "" MS_PRIVATE] ++
            ([Event.mountE "." "." "bind" (MS_BIND ||| MS_REC)] ++
              (shiftfsToks cfg).map (fun p => if p = cfg.rootfs then
                  Event.mountE "." "." "shiftfs" 0 else Event.mountE p p "shiftfs" 0))) ++
           [Event.unshareE (flags1 &&& compl32 CLONE_NEWCGROUP), Event.cloneE JUMP_INIT,
            Event.syncSend SYNC_RECVPID_PLS, Event.sendPid,
            Event.syncRecv SYNC_RECVPID_ACK, Event.syncSend SYNC_CHILD_READY,
            Event.exitE 0]))))) := by
    unfold p1_stage runEvents
    rw [rbind_run_ok hHead, htail]
    simp
  have hout : isOk (runOutcome (p1_stage cfg) w) = true := by
    unfold p1_stage runOutcome
    rw [rbind_run_ok hHead, htail]
    rfl
  have hJneutral : ∀ e ∈ esJ, isSetresuidEv e = false ∧ isParentPrivEv cfg e = false ∧
      isBindSelfEv e = false ∧ isShiftfsEv e = false := by
    intro e he
    rcases hJmem e he with ⟨p, rfl⟩ | ⟨p, n, rfl⟩ <;>
      exact ⟨rfl, rfl, rfl, rfl⟩
  have hCneutral : ∀ e ∈ esC, isSetresuidEv e = false ∧ isParentPrivEv cfg e = false ∧
      isBindSelfEv e = false ∧ isShiftfsEv e = false := by
    intro e he
    rw [hCmem e he]
    exact ⟨rfl, rfl, rfl, rfl⟩
  have hm1pp : isParentPrivEv cfg (Event.mountE "" "/" "" cfg.rootfsProp) = false := by
    unfold isParentPrivEv
    simp only [beq_eq_false_iff_ne, ne_eq, Event.mountE.injEq]
    intro hcon
    exact hpm hcon.2.1.symm
  have hm1neutral : isSetresuidEv (Event.mountE "" "/" "" cfg.rootfsProp) = false ∧
      isParentPrivEv cfg (Event.mountE "" "/" "" cfg.rootfsProp) = false ∧
      isBindSelfEv (Event.mountE "" "/" "" cfg.rootfsProp) = false ∧
      isShiftfsEv (Event.mountE "" "/" "" cfg.rootfsProp) = false := by
    refine ⟨rfl, hm1pp, ?_, ?_⟩ <;> simp [isBindSelfEv, isShiftfsEv]
  have hUmem : ∀ e ∈ ((if cfg.namespaces.isSome then [Event.prctlDumpable 1] else []) ++
      ([Event.syncSend SYNC_USERMAP_PLS] ++ ([Event.syncRecv SYNC_USERMAP_ACK] ++
        ((if cfg.namespaces.isSome then [Event.prctlDumpable 0] else []) ++
          [Event.setresuidE 0 0 0])))),
      e = Event.prctlDumpable 1 ∨ e = Event.syncSend SYNC_USERMAP_PLS ∨
      e = Event.syncRecv SYNC_USERMAP_ACK ∨ e = Event.prctlDumpable 0 ∨
      e = Event.setresuidE 0 0 0 := by
    intro e he
    by_cases hns : cfg.namespaces.isSome = true <;> simp [hns] at he <;> tauto
  have hUnoMount : ∀ e ∈ ((if cfg.namespaces.isSome then [Event.prctlDumpable 1] else []) ++
      ([Event.syncSend SYNC_USERMAP_PLS] ++ ([Event.syncRecv SYNC_USERMAP_ACK] ++
        ((if cfg.namespaces.isSome then [Event.prctlDumpable 0] else []) ++
          [Event.setresuidE 0 0 0])))),
      isParentPrivEv cfg e = false ∧ isBindSelfEv e = false ∧ isShiftfsEv e = false := by
    intro e he
    rcases hUmem e he with rfl | rfl | rfl | rfl | rfl <;> exact ⟨rfl, rfl, rfl⟩
  have hShiftMem : ∀ e ∈ (shiftfsToks cfg).map (fun p => if p = cfg.rootfs then
      Event.mountE "." "." "shiftfs" 0 else Event.mountE p p "shiftfs" 0),
      isSetresuidEv e = false ∧ isParentPrivEv cfg e = false ∧ isBindSelfEv e = false := by
    intro e he
    rcases List.mem_map.mp he with ⟨p, _, rfl⟩
    by_cases hp : p = cfg.rootfs <;> simp [hp, isSetresuidEv, isParentPrivEv,
      isBindSelfEv]
  have hTailNeutral : ∀ e ∈ [Event.unshareE (flags1 &&& compl32 CLONE_NEWCGROUP),
      Event.cloneE JUMP_INIT, Event.syncSend SYNC_RECVPID_PLS, Event.sendPid,
      Event.syncRecv SYNC_RECVPID_ACK, Event.syncSend SYNC_CHILD_READY,
      Event.exitE 0],
      isSetresuidEv e = false ∧ isParentPrivEv cfg e = false ∧
      isBindSelfEv e = false ∧ isShiftfsEv e = false := by
    intro e he
    fin_cases he <;> exact ⟨rfl, rfl, rfl, rfl⟩
  have hppNeutral : isSetresuidEv (Event.mountE "" cfg.parentMount "" MS_PRIVATE) = false ∧
      isBindSelfEv (Event.mountE "" cfg.parentMount "" MS_PRIVATE) = false ∧
      isShiftfsEv (Event.mountE "" cfg.parentMount "" MS_PRIVATE) = false := by
    refine ⟨rfl, ?_, ?_⟩ <;> simp [isBindSelfEv, isShiftfsEv]
  have hbindNeutral : isSetresuidEv (Event.mountE "." "." "bind" (MS_BIND ||| MS_REC)) = false ∧
      isParentPrivEv cfg (Event.mountE "." "." "bind" (MS_BIND ||| MS_REC)) = false ∧
      isShiftfsEv (Event.mountE "." "." "bind" (MS_BIND ||| MS_REC)) = false := by
    refine ⟨rfl, ?_, ?_⟩ <;> simp [isParentPrivEv, isShiftfsEv]
  rw [htr]
  refine ⟨?_, ?_, ?_, ?_, ?_, hout⟩
  · -- setresuid before parent-priv
    apply beforeAll_prepend_neutral (fun e he => ⟨(hJneutral e he).1, (hJneutral e he).2.1⟩)
    apply beforeAll_prepend_neutral (by intro e he; fin_cases he; exact ⟨rfl, rfl⟩)
    apply beforeAll_prepend_neutral (fun e he => ⟨(hCneutral e he).1, (hCneutral e he).2.1⟩)
    apply beforeAll_prepend_neutral (by intro e he; fin_cases he; exact ⟨rfl, hm1pp⟩)
    apply beforeAll_append
    · intro e he
      exact (hUnoMount e he).1
    · intro e he
      rcases List.mem_append.mp he with he | he
      · rcases List.mem_append.mp he with he | he
        · fin_cases he
          rfl
        · rcases List.mem_append.mp he with he | he
          · fin_cases he
            exact hbindNeutral.1
          · exact (hShiftMem e he).1
      · exact (hTailNeutral e he).1
  · -- parent-priv before bind
    apply beforeAll_prepend_neutral (fun e he => ⟨(hJneutral e he).2.1, (hJneutral e he).2.2.1⟩)
    apply beforeAll_prepend_neutral (by intro e he; fin_cases he; exact ⟨rfl, rfl⟩)
    apply beforeAll_prepend_neutral (fun e he => ⟨(hCneutral e he).2.1, (hCneutral e he).2.2.1⟩)
    apply beforeAll_prepend_neutral (by intro e he; fin_cases he; exact ⟨hm1pp, hm1neutral.2.2.1⟩)
    apply beforeAll_prepend_neutral (fun e he => ⟨(hUnoMount e he).1, (hUnoMount e he).2.1⟩)
    rw [List.append_assoc]
    apply beforeAll_append
    · intro e he
      fin_cases he
      exact hppNeutral.2.1
    · intro e he
      rcases List.mem_append.mp he with he | he
      · rcases List.mem_append.mp he with he | he
        · fin_cases he
          exact hbindNeutral.2.1
        · exact (hShiftMem e he).2.1
      · exact (hTailNeutral e he).2.1
  · -- bind before shiftfs
    apply beforeAll_prepend_neutral (fun e he => ⟨(hJneutral e he).2.2.1, (hJneutral e he).2.2.2⟩)
    apply beforeAll_prepend_neutral (by intro e he; fin_cases he; exact ⟨rfl, rfl⟩)
    apply beforeAll_prepend_neutral (fun e he => ⟨(hCneutral e he).2.2.1, (hCneutral e he).2.2.2⟩)
    apply beforeAll_prepend_neutral (by intro e he; fin_cases he; exact ⟨hm1neutral.2.2.1, hm1neutral.2.2.2⟩)
    apply beforeAll_prepend_neutral (fun e he => ⟨(hUnoMount e he).2.1, (hUnoMount e he).2.2⟩)
    rw [List.append_assoc]
    apply beforeAll_prepend_neutral (by intro e he; fin_cases he; exact ⟨hppNeutral.2.1, hppNeutral.2.2⟩)
    rw [List.append_assoc]
    apply beforeAll_append
    · intro e he
      fin_cases he
      exact hbindNeutral.2.2
    · intro e he
      rcases List.mem_append.mp he with he | he
      · exact ((hShiftMem e he).2.2 : isBindSelfEv e = false)
      · exact (hTailNeutral e he).2.2.1
  · simp
  · simp

theorem p1_scenD_fatal (cfg : Config) (w : W)
    (hprep : cfg.prepRootfs = true) (hmpp : cfg.makeParentPriv = true)
    (huser : hasFlag cfg.cloneflags CLONE_NEWUSER = true)
    (hjoin : nsJoinOkP cfg) (hw : w.mnt = [true, false, false]) :
    isOk (runOutcome (p1_stage cfg) w) = false ∧
    Event.exitE 1 ∈ runEvents (p1_stage cfg) w := by
  obtain ⟨esJ, hJ, hJmem⟩ := joinpart_run cfg w hjoin
  have hB : (if hasFlag cfg.cloneflags CLONE_NEWUSER then
      rseq (unshareCall CLONE_NEWUSER)
        (rpure (clearFlag cfg.cloneflags CLONE_NEWUSER, true))
    else rpure (cfg.cloneflags, false)) w =
      ([Event.unshareE CLONE_NEWUSER],
        Except.ok (clearFlag cfg.cloneflags CLONE_NEWUSER, true), w) := by
    rw [if_pos huser]
    simp [rseq, rbind, emit, rpure, unshareCall]
  obtain ⟨esC, flags1, hC, hCmem⟩ :
      ∃ esC flags1, (if hasFlag (clearFlag cfg.cloneflags CLONE_NEWUSER) CLONE_NEWNS then
          rseq (unshareCall CLONE_NEWNS)
            (rpure (clearFlag (clearFlag cfg.cloneflags CLONE_NEWUSER) CLONE_NEWNS))
        else rpure (clearFlag cfg.cloneflags CLONE_NEWUSER)) w =
          (esC, Except.ok flags1, w) ∧
        ∀ e ∈ esC, e = Event.unshareE CLONE_NEWNS := by
    by_cases hns2 : hasFlag (clearFlag cfg.cloneflags CLONE_NEWUSER) CLONE_NEWNS = true
    · refine ⟨[Event.unshareE CLONE_NEWNS],
        clearFlag (clearFlag cfg.cloneflags CLONE_NEWUSER) CLONE_NEWNS, ?_, by simp⟩
      rw [if_pos hns2]
      simp [rseq, rbind, emit, rpure, unshareCall]
    · refine ⟨[], clearFlag cfg.cloneflags CLONE_NEWUSER, ?_, by simp⟩
      rw [if_neg hns2]
      rfl
  have hP := p1_prep_run_scenD cfg w [false] hprep hmpp (by rw [hw])
  have hU := p1_usermap_run cfg (W.mk w.wr [false] w.helper)
  have hD := p1_deferred_run_fail cfg (W.mk w.wr [false] w.helper) hmpp rfl
  have hHead : p1_head cfg w =
      (esJ ++ ([Event.unshareE CLONE_NEWUSER] ++ (esC ++
        ([Event.mountE "" "/" "" cfg.rootfsProp] ++
         (((if cfg.namespaces.isSome then [Event.prctlDumpable 1] else []) ++
           ([Event.syncSend SYNC_USERMAP_PLS] ++ ([Event.syncRecv SYNC_USERMAP_ACK] ++
             ((if cfg.namespaces.isSome then [Event.prctlDumpable 0] else []) ++
               [Event.setresuidE 0 0 0])))) ++
          [Event.logLine "fatal"
             "failed to set rootfs parent mount propagation to private",
           Event.exitE 1])))),
       Except.error "failed to set rootfs parent mount propagation to private",
       W.mk w.wr [] w.helper) := by
    unfold p1_head
    rw [rseq_run_ok hJ]
    rw [rbind_run_ok hB]
    simp only []
    rw [rbind_run_ok hC]
    simp only []
    rw [rbind_run_ok hP]
    simp only []
    rw [rseq_run_ok hU]
    simp only []
    rw [rseq_run_err hD]
  constructor
  · unfold p1_stage runOutcome
    rw [rbind_run_err hHead]
    rfl
  · unfold p1_stage runEvents
    rw [rbind_run_err hHead]
    simp

/-- C3: whenever `prep_rootfs` is set, any clone of P2 is preceded by a
bind-to-self mount of the rootfs, in every run of P1; and in the deferred
scenario (`make_parent_priv` set, the first `MS_PRIVATE` attempt failing,
a new user namespace requested), the bind-to-self and shiftfs mounts are
skipped initially: after the USERMAP ACK and `setresuid(0,0,0)` step P1
retries `MS_PRIVATE` (now fatal on failure, as the third conjunct shows),
then performs the bind-to-self mount and then the shiftfs mounts. -/
theorem claim_C3_bind_before_clone (cfg : Config) :
    (∀ w : W, cfg.prepRootfs = true →
      precededBy isCloneInitEv isBindSelfEv (runEvents (p1_stage cfg) w)) ∧
    (cfg.prepRootfs = true → cfg.makeParentPriv = true →
      hasFlag cfg.cloneflags CLONE_NEWUSER = true → cfg.parentMount ≠ "/" →
      nsJoinOkP cfg →
      (∀ w : W, w.mnt = [true, false] →
        beforeAll isSetresuidEv (isParentPrivEv cfg) (runEvents (p1_stage cfg) w) ∧
        beforeAll (isParentPrivEv cfg) isBindSelfEv (runEvents (p1_stage cfg) w) ∧
        beforeAll isBindSelfEv isShiftfsEv (runEvents (p1_stage cfg) w) ∧
        Event.mountE "" cfg.parentMount "" MS_PRIVATE ∈ runEvents (p1_stage cfg) w ∧
        Event.mountE "." "." "bind" (MS_BIND ||| MS_REC) ∈
          runEvents (p1_stage cfg) w ∧
        isOk (runOutcome (p1_stage cfg) w) = true) ∧
      (∀ w : W, w.mnt = [true, false, false] →
        isOk (runOutcome (p1_stage cfg) w) = false ∧
        Event.exitE 1 ∈ runEvents (p1_stage cfg) w)) :=
  ⟨fun w hprep => c3_part1 cfg w hprep,
    fun hprep hmpp huser hpm hjoin =>
      ⟨fun w hw => p1_scenD_props cfg w hprep hmpp huser hpm hjoin hw,
       fun w hw => p1_scenD_fatal cfg w hprep hmpp huser hjoin hw⟩⟩

/-- Witness for C3 at the Scenario D configuration, with the oracle making
the first parent-private mount fail (and, for the fatal conjunct, the retry
fail as well). -/
theorem claim_C3_witness :
    (cfgScenD.prepRootfs = true ∧ cfgScenD.makeParentPriv = true ∧
      hasFlag cfgScenD.cloneflags CLONE_NEWUSER = true ∧ cfgScenD.parentMount ≠ "/" ∧
      nsJoinOkP cfgScenD ∧ (W.mk [] [true, false] []).mnt = [true, false] ∧
      (W.mk [] [true, false, false] []).mnt = [true, false, false]) ∧
    precededBy isCloneInitEv isBindSelfEv
      (runEvents (p1_stage cfgScenD) (W.mk [] [true, false] [])) ∧
    beforeAll isSetresuidEv (isParentPrivEv cfgScenD)
      (runEvents (p1_stage cfgScenD) (W.mk [] [true, false] [])) ∧
    Event.mountE "." "." "bind" (MS_BIND ||| MS_REC) ∈
      runEvents (p1_stage cfgScenD) (W.mk [] [true, false] []) ∧
    isOk (runOutcome (p1_stage cfgScenD) (W.mk [] [true, false, false] [])) = false := by
  have h := claim_C3_bind_before_clone cfgScenD
  have h2 := h.2 (by decide) (by decide) (by decide) (by decide) (Or.inl rfl)
  exact ⟨⟨by decide, by decide, by decide, by decide, Or.inl rfl, rfl, rfl⟩,
    h.1 (W.mk [] [true, false] []) (by decide),
    (h2.1 (W.mk [] [true, false] []) rfl).1,
    (h2.1 (W.mk [] [true, false] []) rfl).2.2.2.2.1,
    (h2.2 (W.mk [] [true, false, false] []) rfl).1⟩
